import Mathlib

/-!
# Conversation and message persistence and the realtime gateway of the chat backend

A shallow embedding of `internal/utils/error.go`,
`internal/service/conversation-service.go`,
`internal/service/message-service.go` and `internal/websocket/gateway.go`.

The document store is an explicit state: three collections (lists of
documents in insertion order), the outcome each kind of driver call would
have (`Health`), and the trace of the driver calls made so far.  A service
method takes the store and returns its Go result together with the store it
leaves behind.  What a call reads from outside the store (the identifier
allocator and the clock) is passed in as a `World`.

The gateway is split along its goroutines.  The hub (`handleMessages`) is a
step function on the set of live connections, one step per value taken off a
channel.  The dispatcher (`processMessage` and the three handlers) works on
the store and the originating socket, with `encoding/json` passed in as a
`JsonCodec`; a handler call returns, returns an error, or panics.  The
connection handler (`HandleConnections`) is run over the results of its socket
reads and yields the trace of what it does, in program order.  Log lines are
left out.
-/

set_option linter.dupNamespace false

namespace SimpleChat

/-! ## Identifiers, instants, errors -/

/-- The driver type `primitive.ObjectID`: twelve bytes, held as the number they
spell in big-endian order. -/
structure ObjectID where
  val : Nat
deriving DecidableEq, Repr

/-- The driver constant `primitive.NilObjectID`: the all-zero identifier. -/
def NilObjectID : ObjectID := ⟨0⟩

/-- A `time.Time` instant, as a count of clock ticks. -/
abbrev Time := Nat

/-- The struct `utils.CustomError` of `internal/utils/error.go`. -/
structure CustomError where
  Message : String
  ErrorCode : Nat
  HTTPStatusCode : Nat
  Service : String
  Success : Bool
deriving DecidableEq, Repr

/-- Go `error` values met in the service layer. -/
inductive GoError where
  /-- A value built by `errors.New`. -/
  | plain (msg : String)
  /-- A `*utils.CustomError`. -/
  | custom (e : CustomError)
  /-- The driver sentinel `mongo.ErrNoDocuments`. -/
  | ErrNoDocuments
  /-- Any other error handed back by the driver. -/
  | driver (msg : String)
deriving DecidableEq, Repr

/-- The function `newError` of `internal/utils/error.go`; `serviceName` is the
package variable read from the environment at start-up. -/
def newError (serviceName : String) (message : String) (errorCode httpStatusCode : Nat) :
    CustomError :=
  { Message := message
    ErrorCode := errorCode
    HTTPStatusCode := httpStatusCode
    Service := serviceName
    Success := false }

/-- The constructor `NewBadRequestError`: HTTP 400. -/
def NewBadRequestError (serviceName message : String) : CustomError :=
  newError serviceName message 400 400

/-- The constructor `NewConflictError`: HTTP 409. -/
def NewConflictError (serviceName message : String) : CustomError :=
  newError serviceName message 409 409

/-- The constructor `NewInternalServerError`: HTTP 500. -/
def NewInternalServerError (serviceName message : String) : CustomError :=
  newError serviceName message 500 500

/-- The constructor `NewNotFoundError`: HTTP 404. -/
def NewNotFoundError (serviceName message : String) : CustomError :=
  newError serviceName message 404 404

/-- The errors the service layer uses for an unexpected store failure: a
`CustomError` with status 500, the literal `errors.New("internal server error")`,
or the driver's own error passed through. -/
def GoError.isInternal : GoError → Bool
  | .custom e => e.HTTPStatusCode == 500
  | .plain msg => msg == "internal server error"
  | .ErrNoDocuments => false
  | .driver _ => true

/-! ## Documents -/

/-- Modelled from the spec: the struct `model.Conversation` (package
`internal/model` is not among the sources); fields as in section 3 and as the
services use them. -/
structure Conversation where
  ID : ObjectID
  SenderId : ObjectID
  ReceiverId : ObjectID
  CreatedAt : Time
  UpdatedAt : Time
deriving DecidableEq, Repr

/-- Modelled from the spec: the struct `model.Message` (package `internal/model`
is not among the sources); fields as in section 3 and as the services use them. -/
structure Message where
  ID : ObjectID
  ConversationId : ObjectID
  SenderId : ObjectID
  Message : String
  CreatedAt : Time
  UpdatedAt : Time
deriving DecidableEq, Repr

/-- Modelled from the spec: the struct `model.User` (package `internal/model` is
not among the sources); fields as in section 3 and as `user-service.go` uses
them. -/
structure User where
  ID : ObjectID
  Email : String
  Username : String
  Password : String
  VerifiedEmail : Bool
  OtpToken : String
  ExpiredAt : Time
  CreatedAt : Time
  UpdatedAt : Time
deriving DecidableEq, Repr

/-! ## The document store -/

/-- The outcome of each kind of driver call: `none` when the call goes through,
`some msg` when the driver answers with an unexpected error. User look-ups can
fail per identifier. -/
structure Health where
  userCount : Option String
  userFind : List (ObjectID × String)
  convFind : Option String
  convInsert : Option String
  msgInsert : Option String
deriving DecidableEq, Repr

/-- A store all of whose calls go through. -/
def Health.healthy : Health :=
  { userCount := none, userFind := [], convFind := none, convInsert := none, msgInsert := none }

/-- One call on a collection handle. -/
inductive StoreCall where
  | countUsersIn (ids : List ObjectID)
  | findConversationByPair (senderId receiverId : ObjectID)
  | findConversationById (id : ObjectID)
  | findUserById (id : ObjectID)
  | insertConversation (doc : Conversation)
  | insertMessage (doc : Message)
deriving DecidableEq, Repr

/-- The database: collections `user`, `conversation`, `message`, the health of
the driver, and the calls made so far (oldest first). -/
structure Store where
  users : List User
  conversations : List Conversation
  messages : List Message
  health : Health
  trace : List StoreCall
deriving DecidableEq, Repr

/-- Record a driver call. -/
def Store.log (s : Store) (c : StoreCall) : Store :=
  { s with trace := s.trace ++ [c] }

/-- The call `userCollection.CountDocuments(ctx, {"_id": {"$in": ids}})`. -/
def countUsersIn (s : Store) (ids : List ObjectID) : Except GoError Nat × Store :=
  match s.health.userCount with
  | some msg => (.error (.driver msg), s.log (.countUsersIn ids))
  | none =>
    (.ok (s.users.filter (fun u => ids.contains u.ID)).length, s.log (.countUsersIn ids))

/-- The call `conversationCollection.FindOne(ctx, {"senderId": a, "receiverId": b}).Decode(..)`:
the first matching document, or `mongo.ErrNoDocuments`. -/
def findConversationByPair (s : Store) (senderId receiverId : ObjectID) :
    Except GoError Conversation × Store :=
  match s.health.convFind with
  | some msg => (.error (.driver msg), s.log (.findConversationByPair senderId receiverId))
  | none =>
    match s.conversations.find? (fun c => c.SenderId == senderId && c.ReceiverId == receiverId) with
    | some c => (.ok c, s.log (.findConversationByPair senderId receiverId))
    | none => (.error .ErrNoDocuments, s.log (.findConversationByPair senderId receiverId))

/-- The call `conversationCollection.FindOne(ctx, {"_id": id}).Decode(..)`. -/
def findConversationById (s : Store) (id : ObjectID) : Except GoError Conversation × Store :=
  match s.health.convFind with
  | some msg => (.error (.driver msg), s.log (.findConversationById id))
  | none =>
    match s.conversations.find? (fun c => c.ID == id) with
    | some c => (.ok c, s.log (.findConversationById id))
    | none => (.error .ErrNoDocuments, s.log (.findConversationById id))

/-- The call `userCollection.FindOne(ctx, {"_id": id}).Decode(..)`. -/
def findUserById (s : Store) (id : ObjectID) : Except GoError User × Store :=
  match s.health.userFind.lookup id with
  | some msg => (.error (.driver msg), s.log (.findUserById id))
  | none =>
    match s.users.find? (fun u => u.ID == id) with
    | some u => (.ok u, s.log (.findUserById id))
    | none => (.error .ErrNoDocuments, s.log (.findUserById id))

/-- The call `conversationCollection.InsertOne(ctx, doc)`: the error, if any. -/
def insertConversation (s : Store) (doc : Conversation) : Option GoError × Store :=
  match s.health.convInsert with
  | some msg => (some (.driver msg), s.log (.insertConversation doc))
  | none =>
    (none, { s with conversations := s.conversations ++ [doc],
                    trace := s.trace ++ [.insertConversation doc] })

/-- The call `messageCollection.InsertOne(ctx, doc)`: the error, if any. -/
def insertMessage (s : Store) (doc : Message) : Option GoError × Store :=
  match s.health.msgInsert with
  | some msg => (some (.driver msg), s.log (.insertMessage doc))
  | none =>
    (none, { s with messages := s.messages ++ [doc],
                    trace := s.trace ++ [.insertMessage doc] })

/-- What one service call reads from outside the store: the identifier
`primitive.NewObjectID()` hands out, and the two successive readings of
`time.Now()`. -/
structure World where
  newId : ObjectID
  now1 : Time
  now2 : Time
deriving DecidableEq, Repr

/-! ## `internal/service/conversation-service.go` -/

namespace ConversationService

/-- The method `validateUserInput`: the error, if any. -/
def validateUserInput (conversation : Conversation) : Option GoError :=
  if conversation.SenderId = NilObjectID ∨ conversation.ReceiverId = NilObjectID then
    some (.plain "senderId and receiverId are required")
  else
    none

/-- The method `Create`. -/
def Create (serviceName : String) (w : World) (s : Store) (conversation : Conversation) :
    Except GoError Conversation × Store :=
  match validateUserInput conversation with
  | some err => (.error err, s)
  | none =>
    match countUsersIn s [conversation.SenderId, conversation.ReceiverId] with
    | (.error _, s1) =>
      (.error (.custom (NewBadRequestError serviceName "One or both users do not exist")), s1)
    | (.ok count, s1) =>
      if count < 2 then
        (.error (.custom (NewBadRequestError serviceName "One or both users do not exist")), s1)
      else
        match findConversationByPair s1 conversation.SenderId conversation.ReceiverId with
        | (.ok _, s2) =>
          (.error (.custom (NewConflictError serviceName "Conversation already exists")), s2)
        | (.error err, s2) =>
          if err ≠ .ErrNoDocuments then
            (.error (.plain "internal server error"), s2)
          else
            let conversation : Conversation :=
              { conversation with ID := w.newId, CreatedAt := w.now1, UpdatedAt := w.now2 }
            match insertConversation s2 conversation with
            | (some err, s3) => (.error err, s3)
            | (none, s3) => (.ok conversation, s3)

/-- The method `GetConversationWithUsers`: the four Go results (conversation,
sender, receiver, error; `none` is Go `nil`) and the store left behind. -/
def GetConversationWithUsers (s : Store) (convID : ObjectID) :
    (Option Conversation × Option User × Option User × Option GoError) × Store :=
  match findConversationById s convID with
  | (.error err, s1) => ((none, none, none, some err), s1)
  | (.ok conversation, s1) =>
    match findUserById s1 conversation.SenderId with
    | (.error err, s2) => ((some conversation, none, none, some err), s2)
    | (.ok sender, s2) =>
      match findUserById s2 conversation.ReceiverId with
      | (.error err, s3) => ((some conversation, some sender, none, some err), s3)
      | (.ok receiver, s3) => ((some conversation, some sender, some receiver, none), s3)

end ConversationService

/-! ## `internal/service/message-service.go` -/

namespace MessageService

/-- The method `validateUserInput`: the error, if any. -/
def validateUserInput (message : Message) : Option GoError :=
  if message.SenderId = NilObjectID ∨ message.ConversationId = NilObjectID then
    some (.plain "ConversationId and SenderId are required")
  else
    none

/-- The method `Create`. -/
def Create (w : World) (s : Store) (message : Message) : Except GoError Message × Store :=
  match validateUserInput message with
  | some err => (.error err, s)
  | none =>
    let message : Message :=
      { message with ID := w.newId, CreatedAt := w.now1, UpdatedAt := w.now2 }
    match insertMessage s message with
    | (some err, s1) => (.error err, s1)
    | (none, s1) => (.ok message, s1)

end MessageService

/-! ## Runs of `Create` calls -/

/-- One `ConversationService.Create` call of a sequential run: the health the
driver has when the call starts, what the call reads from outside, and its
argument. -/
structure CreateCall where
  health : Health
  world : World
  conversation : Conversation
deriving DecidableEq, Repr

/-- The store after a sequential run of `ConversationService.Create` calls. -/
def runCreates (serviceName : String) : List CreateCall → Store → Store
  | [], s => s
  | k :: ks, s =>
    runCreates serviceName ks
      (ConversationService.Create serviceName k.world { s with health := k.health }
        k.conversation).2

/-- The ordered `(senderId, receiverId)` pair of a conversation. -/
def Conversation.pair (c : Conversation) : ObjectID × ObjectID := (c.SenderId, c.ReceiverId)

/-- At most one conversation per ordered `(senderId, receiverId)` pair. -/
def PairUnique (cs : List Conversation) : Prop := (cs.map Conversation.pair).Nodup

instance (cs : List Conversation) : Decidable (PairUnique cs) := by
  unfold PairUnique; infer_instance

/-- The number of user documents whose id is `a`. -/
def idCount (us : List User) (a : ObjectID) : Nat := us.countP (fun u => u.ID == a)

/-! ## Sample data -/

/-- A user record with the given identifier. -/
def sampleUser (n : Nat) : User :=
  { ID := ⟨n⟩, Email := "", Username := "", Password := "", VerifiedEmail := true,
    OtpToken := "", ExpiredAt := 0, CreatedAt := 0, UpdatedAt := 0 }

/-- A conversation request as the gateway builds it: only the two participant
ids are set. -/
def request (a b : Nat) : Conversation :=
  { ID := NilObjectID, SenderId := ⟨a⟩, ReceiverId := ⟨b⟩, CreatedAt := 0, UpdatedAt := 0 }

/-- A healthy store with users 1 and 2 and nothing else. -/
def twoUsers : Store :=
  { users := [sampleUser 1, sampleUser 2], conversations := [], messages := [],
    health := Health.healthy, trace := [] }

/-- The store `twoUsers` with a driver whose `CountDocuments` on the user
collection fails. -/
def countDown : Store :=
  { twoUsers with health := { Health.healthy with userCount := some "connection reset" } }

/-- The store `twoUsers` with a driver whose `FindOne` on the conversation
collection fails. -/
def lookupDown : Store :=
  { twoUsers with health := { Health.healthy with convFind := some "timeout" } }

/-- A message as the gateway builds it for `send_message`: conversation id,
sender id and body are set. -/
def outgoing (conversationId senderId : Nat) (body : String) : Message :=
  { ID := NilObjectID, ConversationId := ⟨conversationId⟩, SenderId := ⟨senderId⟩,
    Message := body, CreatedAt := 0, UpdatedAt := 0 }

/-! ## `internal/websocket/gateway.go`: the hub -/

/-- A `*websocket.Conn`, by identity. -/
abbrev Conn := Nat

/-- A `[]byte` payload. -/
abbrev Bytes := List Nat

/-- The constant `websocket.TextMessage`. -/
def TextMessage : Nat := 1

/-- The part of `MyWebSocketServer` owned by `handleMessages`: the keys of the map
`clients`, together with the `WriteMessage` and `Close` calls the hub has made
(oldest first). -/
structure Hub where
  clients : List Conn
  writes : List (Conn × Nat × Bytes)
  closed : List Conn

/-- What `handleMessages` takes off one of its three channels. A broadcast
carries, besides the frame, which connections would fail the write. -/
inductive HubEvent where
  | register (conn : Conn)
  | unregister (conn : Conn)
  | broadcast (message : Bytes) (fails : Conn → Bool)

/-- The builtin `delete(ws.clients, conn)`. -/
def deleteClient (clients : List Conn) (conn : Conn) : List Conn :=
  clients.filter (fun c => c != conn)

/-- The body of `for conn := range ws.clients` in the broadcast case, over the
keys still to visit (taken in list order). -/
def broadcastLoop (message : Bytes) (fails : Conn → Bool) : List Conn → Hub → Hub
  | [], h => h
  | conn :: rest, h =>
    if fails conn then
      broadcastLoop message fails rest
        { clients := deleteClient h.clients conn
          writes := h.writes ++ [(conn, TextMessage, message)]
          closed := h.closed ++ [conn] }
    else
      broadcastLoop message fails rest
        { h with writes := h.writes ++ [(conn, TextMessage, message)] }

/-- One turn of the `select` in `handleMessages`. -/
def handleMessages (h : Hub) : HubEvent → Hub
  | .register conn =>
    { h with clients := if conn ∈ h.clients then h.clients else h.clients ++ [conn] }
  | .unregister conn =>
    if conn ∈ h.clients then
      { h with clients := deleteClient h.clients conn, closed := h.closed ++ [conn] }
    else
      h
  | .broadcast message fails => broadcastLoop message fails h.clients h

/-- The hub after a sequence of events. -/
def runHub : List HubEvent → Hub → Hub
  | [], h => h
  | e :: es, h => runHub es (handleMessages h e)

/-- The connections the hub closes while handling one event. -/
def closedBy (h : Hub) (e : HubEvent) : List Conn :=
  (handleMessages h e).closed.drop h.closed.length

/-- Whether an event is the registration of `conn`. -/
def HubEvent.isRegister (conn : Conn) : HubEvent → Bool
  | .register c => c == conn
  | _ => false

/-! ## `internal/websocket/gateway.go`: the dispatcher -/

/-- The message of a Go error, `err.Error()`. -/
def GoError.Error : GoError → String
  | .plain msg => msg
  | .custom e => e.Message
  | .ErrNoDocuments => "mongo: no documents in result"
  | .driver msg => msg

/-- A decoded JSON value, as `encoding/json` stores it in an `interface{}`. -/
inductive Json where
  | null
  | bool (b : Bool)
  | number (literal : String)
  | str (s : String)
  | array (items : List Json)
  | object (fields : List (String × Json))

/-- A `map[string]interface{}`; `request[key]` is `List.lookup`, and a missing key
reads as Go `nil`, like a JSON `null`. -/
abbrev Request := List (String × Json)

/-- The guarded assertion `s, ok := x.(string)`; `none` is `ok = false`. -/
def asString : Option Json → Option String
  | some (.str s) => some s
  | _ => none

/-- The dynamic type Go reports for a value held in an `interface{}`. -/
def goTypeName : Option Json → String
  | none => "nil"
  | some .null => "nil"
  | some (.bool _) => "bool"
  | some (.number _) => "float64"
  | some (.str _) => "string"
  | some (.array _) => "[]interface \x7b\x7d"
  | some (.object _) => "map[string]interface \x7b\x7d"

/-- The value of one hexadecimal digit, as `encoding/hex` reads it. -/
def hexDigit (c : Char) : Option Nat :=
  if 48 ≤ c.toNat ∧ c.toNat ≤ 57 then some (c.toNat - 48)
  else if 97 ≤ c.toNat ∧ c.toNat ≤ 102 then some (c.toNat - 87)
  else if 65 ≤ c.toNat ∧ c.toNat ≤ 70 then some (c.toNat - 55)
  else none

/-- The driver function `primitive.ObjectIDFromHex`: the string must be 24 bytes
long and every byte a hexadecimal digit. The two error texts stand for the
driver's `ErrInvalidHex` and for the `encoding/hex` error, whose text also quotes
the offending byte. -/
def ObjectIDFromHex (s : String) : Except GoError ObjectID :=
  if s.utf8ByteSize ≠ 24 then
    .error (.driver "the provided hex string is not a valid ObjectID")
  else if s.toList.all (fun c => (hexDigit c).isSome) then
    .ok ⟨s.toList.foldl (fun acc c => acc * 16 + (hexDigit c).getD 0) 0⟩
  else
    .error (.driver "encoding/hex: invalid byte")

/-- The function `parseObjectID`. -/
def parseObjectID (id : Option Json) : Except GoError ObjectID :=
  match asString id with
  | none => .error (.plain "id is not a string")
  | some idStr => ObjectIDFromHex idStr

/-- The values the handlers put in a response map. A pointer is an `Option`. -/
inductive Payload where
  | text (s : String)
  | conversation (c : Option Conversation)
  | user (u : Option User)
  | message (m : Option Message)
deriving DecidableEq, Repr

/-- A response `map[string]interface{}`, keys in the order of the map literal. -/
abbrev Response := List (String × Payload)

/-- The two `encoding/json` functions the gateway calls. -/
structure JsonCodec where
  unmarshal : Bytes → Except String Request
  marshal : Response → Except String Bytes

/-- The originating connection: the `WriteMessage` calls made on it (oldest
first) and the error, if any, a write comes back with. -/
structure Socket where
  writes : List (Nat × Bytes)
  writeErr : Option String
deriving DecidableEq, Repr

/-- What a frame handler works on: the database and the originating socket. -/
structure Gateway where
  store : Store
  socket : Socket
deriving DecidableEq, Repr

/-- How a handler call ends: it returns `nil`, returns an error, or panics. -/
inductive Outcome where
  | ok
  | error (e : GoError)
  | panic (msg : String)
deriving DecidableEq, Repr

/-- The method `sendResponse`: the error, if any, and the socket afterwards. -/
def sendResponse (codec : JsonCodec) (socket : Socket) (messageType : Nat)
    (response : Response) : Option GoError × Socket :=
  match codec.marshal response with
  | .error err => (some (.plain ("error marshalling response: " ++ err)), socket)
  | .ok responseMessage =>
    match socket.writeErr with
    | some err =>
      (some (.plain ("error sending message: " ++ err)),
        { socket with writes := socket.writes ++ [(messageType, responseMessage)] })
    | none =>
      (none, { socket with writes := socket.writes ++ [(messageType, responseMessage)] })

/-- The method `handleCreateConversation`. -/
def handleCreateConversation (serviceName : String) (w : World) (g : Gateway)
    (request : Request) : Outcome × Gateway :=
  match parseObjectID (request.lookup "senderId") with
  | .error err => (.error (.plain ("invalid senderId: " ++ err.Error)), g)
  | .ok senderID =>
    match parseObjectID (request.lookup "receiverId") with
    | .error err => (.error (.plain ("invalid receiverId: " ++ err.Error)), g)
    | .ok receiverID =>
      let conversation : Conversation :=
        { ID := NilObjectID, SenderId := senderID, ReceiverId := receiverID,
          CreatedAt := 0, UpdatedAt := 0 }
      match ConversationService.Create serviceName w g.store conversation with
      | (.error err, store) =>
        (.error (.plain ("error creating conversation: " ++ err.Error)),
          { g with store := store })
      | (.ok _, store) => (.ok, { g with store := store })

/-- The method `handleGetConversationById`. -/
def handleGetConversationById (codec : JsonCodec) (g : Gateway) (request : Request) :
    Outcome × Gateway :=
  match parseObjectID (request.lookup "_id") with
  | .error err => (.error (.plain ("invalid conversationID: " ++ err.Error)), g)
  | .ok conversationID =>
    match ConversationService.GetConversationWithUsers g.store conversationID with
    | ((_, _, _, some err), store) =>
      (.error (.plain ("error getting conversation: " ++ err.Error)), { g with store := store })
    | ((conversation, sender, receiver, none), store) =>
      match sendResponse codec g.socket TextMessage
          [("conversation", .conversation conversation), ("sender", .user sender),
            ("receiver", .user receiver)] with
      | (some err, socket) => (.error err, { store := store, socket := socket })
      | (none, socket) => (.ok, { store := store, socket := socket })

/-- The method `handleSendMessage`. The unguarded assertion
`request["message"].(string)` panics when the entry is not a string. -/
def handleSendMessage (codec : JsonCodec) (w : World) (g : Gateway) (request : Request) :
    Outcome × Gateway :=
  match parseObjectID (request.lookup "conversationId") with
  | .error err => (.error (.plain ("invalid conversationId: " ++ err.Error)), g)
  | .ok conversationID =>
    match parseObjectID (request.lookup "senderId") with
    | .error err => (.error (.plain ("invalid senderId: " ++ err.Error)), g)
    | .ok senderID =>
      match asString (request.lookup "message") with
      | none =>
        (.panic ("interface conversion: interface \x7b\x7d is " ++
          goTypeName (request.lookup "message") ++ ", not string"), g)
      | some body =>
        let message : Message :=
          { ID := NilObjectID, ConversationId := conversationID, SenderId := senderID,
            Message := body, CreatedAt := 0, UpdatedAt := 0 }
        match MessageService.Create w g.store message with
        | (.error err, store) =>
          (.error (.plain ("error creating message: " ++ err.Error)), { g with store := store })
        | (.ok createdMessage, store) =>
          match sendResponse codec g.socket TextMessage
              [("status", .text "success"), ("message", .message (some createdMessage))] with
          | (some err, socket) => (.error err, { store := store, socket := socket })
          | (none, socket) => (.ok, { store := store, socket := socket })

/-- The method `processMessage`. -/
def processMessage (codec : JsonCodec) (serviceName : String) (w : World) (g : Gateway)
    (_messageType : Nat) (message : Bytes) : Outcome × Gateway :=
  match codec.unmarshal message with
  | .error err => (.error (.plain ("invalid message format: " ++ err)), g)
  | .ok request =>
    match asString (request.lookup "action") with
    | none => (.error (.plain "missing or invalid action field"), g)
    | some action =>
      if action = "create_conversation" then
        handleCreateConversation serviceName w g request
      else if action = "get_conversationById" then
        handleGetConversationById codec g request
      else if action = "send_message" then
        handleSendMessage codec w g request
      else
        (.ok, g)

/-! ## Sample frames -/

/-- A codec given by a finite table of frames and their decodings; a response is
encoded as the lengths of its keys. -/
def tableCodec (table : List (Bytes × Request)) : JsonCodec :=
  { unmarshal := fun message =>
      match table.lookup message with
      | some request => .ok request
      | none => .error "invalid character"
    marshal := fun response => .ok (response.map (fun kv => kv.1.length)) }

/-- A well-formed identifier string. -/
def hexA : String := "aaaaaaaaaaaaaaaaaaaaaaaa"

/-- Another well-formed identifier string. -/
def hexB : String := "bbbbbbbbbbbbbbbbbbbbbbbb"

/-- A gateway over the store `twoUsers` with a working socket nothing was
written to. -/
def quietGateway : Gateway :=
  { store := twoUsers, socket := { writes := [], writeErr := none } }

/-- The frame `send_message` with well-formed ids and the number 5 as message. -/
def numberMessage : Request :=
  [("action", .str "send_message"), ("conversationId", .str hexA), ("senderId", .str hexB),
    ("message", .number "5")]

/-- The frame `send_message` with well-formed ids and the text "hi". -/
def textMessage : Request :=
  [("action", .str "send_message"), ("conversationId", .str hexA), ("senderId", .str hexB),
    ("message", .str "hi")]

/-- The frame `create_conversation` whose two ids are both malformed. -/
def twoBadIds : Request :=
  [("action", .str "create_conversation"), ("senderId", .str "zzz"),
    ("receiverId", .str "yyy")]

/-- The codec decoding the frame `[1]` as `numberMessage`, `[2]` as `textMessage`,
`[3]` as `twoBadIds`, `[4]` as a frame with the unknown action "nope" and `[5]`
as a frame without action. -/
def sampleCodec : JsonCodec :=
  tableCodec [([1], numberMessage), ([2], textMessage), ([3], twoBadIds),
    ([4], [("action", .str "nope")]), ([5], [("senderId", .str hexA)])]

/-! ## `internal/websocket/gateway.go`: the connection handler -/

/-- What one `conn.ReadMessage()` returns: a frame, together with what the
dispatch of that frame will read from outside the store, or an error. -/
inductive ReadResult where
  | frame (messageType : Nat) (message : Bytes) (w : World)
  | error (msg : String)

/-- What `HandleConnections` does after the upgrade, in program order. -/
inductive Event where
  /-- The send `ws.register <- conn`. -/
  | registered
  /-- A `ReadMessage` that returned a frame. -/
  | received (message : Bytes)
  /-- A `ReadMessage` that returned an error. -/
  | readFailed (msg : String)
  /-- The send `ws.broadcast <- message`. -/
  | broadcast (message : Bytes)
  /-- The call `ws.processMessage(..)` and how it ended. -/
  | processed (message : Bytes) (out : Outcome)
  /-- The send `ws.unregister <- conn`. -/
  | unregistered
  /-- The deferred `conn.Close()`. -/
  | closed
deriving DecidableEq, Repr

/-- The `for` loop of `HandleConnections` over the results the socket reads give.
When the results run out the loop is waiting in `ReadMessage`. A panic of the
dispatcher unwinds the function, which runs the deferred `Close`. -/
def readLoop (codec : JsonCodec) (serviceName : String) :
    List ReadResult → Gateway → List Event × Gateway
  | [], g => ([], g)
  | .error msg :: _, g => ([.readFailed msg, .unregistered, .closed], g)
  | .frame messageType message w :: rest, g =>
    match processMessage codec serviceName w g messageType message with
    | (.panic p, g1) =>
      ([.received message, .broadcast message, .processed message (.panic p), .closed], g1)
    | (out, g1) =>
      ((.received message :: .broadcast message :: .processed message out ::
          (readLoop codec serviceName rest g1).1),
        (readLoop codec serviceName rest g1).2)

/-- The method `HandleConnections`; `upgraded` tells whether `upgrader.Upgrade`
succeeded. -/
def HandleConnections (codec : JsonCodec) (serviceName : String) (upgraded : Bool)
    (reads : List ReadResult) (g : Gateway) : List Event × Gateway :=
  if upgraded then
    (.registered :: (readLoop codec serviceName reads g).1,
      (readLoop codec serviceName reads g).2)
  else
    ([], g)

/-- The frames pushed onto the broadcast channel, in order. -/
def broadcastsOf : List Event → List Bytes
  | [] => []
  | .broadcast m :: es => m :: broadcastsOf es
  | _ :: es => broadcastsOf es

/-- The frames the socket reads returned, in order. -/
def receivedOf : List Event → List Bytes
  | [] => []
  | .received m :: es => m :: receivedOf es
  | _ :: es => receivedOf es

/-- The shape of a read-loop trace: every frame read is at once followed by its
broadcast and then its dispatch, a dispatch is preceded by the read and the
broadcast of its frame, a failed read is followed by the unregister send and the
close and by nothing else, and the unregister send only follows a failed read. -/
structure Orderly (es : List Event) : Prop where
  echo : broadcastsOf es = receivedOf es
  afterRead : ∀ pre post m, es = pre ++ .received m :: post →
    ∃ out post2, post = .broadcast m :: .processed m out :: post2
  beforeDispatch : ∀ pre post m out, es = pre ++ .processed m out :: post →
    ∃ pre2, pre = pre2 ++ [.received m, .broadcast m]
  afterFailure : ∀ pre post msg, es = pre ++ .readFailed msg :: post →
    post = [.unregistered, .closed]
  beforeUnregister : ∀ pre post, es = pre ++ .unregistered :: post →
    ∃ pre2 msg, pre = pre2 ++ [.readFailed msg]
  once : es.count .unregistered ≤ 1

/-- How the read loop stands once the given read results are used up: waiting in
`ReadMessage`, ended by a failed read, or unwound by a panic of the dispatcher
on the given frame. -/
inductive LoopEnd where
  | waiting
  | readError (msg : String)
  | panicked (message : Bytes) (p : String)
deriving DecidableEq, Repr

/-- The way the `for` loop of `HandleConnections` ends on the given read results. -/
def loopEnd (codec : JsonCodec) (serviceName : String) :
    List ReadResult → Gateway → LoopEnd
  | [], _ => .waiting
  | .error msg :: _, _ => .readError msg
  | .frame messageType message w :: rest, g =>
    match processMessage codec serviceName w g messageType message with
    | (.panic p, _) => .panicked message p
    | (_, g1) => loopEnd codec serviceName rest g1

/-! ## Counting users -/

theorem filter_pair_length (us : List User) (a b : ObjectID) :
    (us.filter (fun u => [a, b].contains u.ID)).length =
      if a = b then idCount us a else idCount us a + idCount us b := by
  induction us with
  | nil => simp [idCount]
  | cons u us ih =>
    by_cases hab : a = b
    · subst hab
      simp only [if_true] at ih ⊢
      by_cases hu : u.ID = a
      · simp [idCount, List.filter_cons, List.countP_cons, hu] at ih ⊢
        exact ih
      · simp [idCount, List.filter_cons, List.countP_cons, hu] at ih ⊢
        exact ih
    · simp only [hab, if_false] at ih ⊢
      by_cases hu : u.ID = a
      · have hb : ¬ u.ID = b := fun h => hab (hu.symm.trans h)
        simp [idCount, List.filter_cons, List.countP_cons, hu, hb] at ih ⊢
        have hb2 : ¬ a = b := hab
        simp [hb2]
        omega
      · by_cases hu2 : u.ID = b
        · have hba : ¬ b = a := fun h => hab h.symm
          simp [idCount, List.filter_cons, List.countP_cons, hu, hu2, hba] at ih ⊢
          omega
        · simp [idCount, List.filter_cons, List.countP_cons, hu, hu2] at ih ⊢
          omega

theorem idCount_pos_iff (us : List User) (a : ObjectID) :
    0 < idCount us a ↔ ∃ u ∈ us, u.ID = a := by
  simp [idCount, List.countP_pos_iff]

theorem idCount_le_one (us : List User) (a : ObjectID) (hnd : (us.map User.ID).Nodup) :
    idCount us a ≤ 1 := by
  have h := List.nodup_iff_count_le_one.mp hnd a
  have e : List.count a (us.map User.ID) = idCount us a := by
    simp [idCount, List.count, List.countP_map, Function.comp_def]
  omega

/-! ## `ConversationService.Create`, branch by branch -/

open ConversationService in
theorem Create_ok_inv {sn : String} {w : World} {s s1 : Store} {conv c : Conversation}
    (h : Create sn w s conv = (.ok c, s1)) :
    conv.SenderId ≠ NilObjectID ∧ conv.ReceiverId ≠ NilObjectID ∧
    s.health.userCount = none ∧
    2 ≤ (s.users.filter (fun u => [conv.SenderId, conv.ReceiverId].contains u.ID)).length ∧
    s.health.convFind = none ∧
    s.conversations.find?
      (fun k => k.SenderId == conv.SenderId && k.ReceiverId == conv.ReceiverId) = none ∧
    s.health.convInsert = none ∧
    c = { conv with ID := w.newId, CreatedAt := w.now1, UpdatedAt := w.now2 } ∧
    s1 = { s with conversations := s.conversations ++ [c],
                  trace := s.trace ++ [.countUsersIn [conv.SenderId, conv.ReceiverId],
                    .findConversationByPair conv.SenderId conv.ReceiverId,
                    .insertConversation c] } := by
  unfold Create validateUserInput at h
  split at h
  · simp at h
  · rename_i hv
    simp at hv
    unfold countUsersIn at h
    cases hc : s.health.userCount with
    | some m => simp [hc] at h
    | none =>
      simp only [hc] at h
      split at h
      · simp at h
      · rename_i hcount
        unfold findConversationByPair at h
        simp only [Store.log] at h
        cases hf : s.health.convFind with
        | some m => simp [hf] at h
        | none =>
          simp only [hf] at h
          cases hfind : s.conversations.find?
              (fun k => k.SenderId == conv.SenderId && k.ReceiverId == conv.ReceiverId) with
          | some k => simp [hfind] at h
          | none =>
            simp only [hfind] at h
            unfold insertConversation at h
            simp only [Store.log] at h
            cases hi : s.health.convInsert with
            | some m => simp [hi] at h
            | none =>
              simp [hi] at h
              obtain ⟨rfl, rfl⟩ := h
              exact ⟨hv.1, hv.2, rfl, by omega, rfl, rfl, rfl, rfl, rfl⟩

open ConversationService in
theorem Create_ok_of (sn : String) (w : World) (s : Store) (conv : Conversation)
    (hS : conv.SenderId ≠ NilObjectID) (hR : conv.ReceiverId ≠ NilObjectID)
    (hc : s.health.userCount = none)
    (hn : 2 ≤ (s.users.filter (fun u => [conv.SenderId, conv.ReceiverId].contains u.ID)).length)
    (hf : s.health.convFind = none)
    (hfind : s.conversations.find?
      (fun k => k.SenderId == conv.SenderId && k.ReceiverId == conv.ReceiverId) = none)
    (hi : s.health.convInsert = none) :
    Create sn w s conv =
      (.ok { conv with ID := w.newId, CreatedAt := w.now1, UpdatedAt := w.now2 },
       { s with
          conversations := s.conversations ++
            [{ conv with ID := w.newId, CreatedAt := w.now1, UpdatedAt := w.now2 }],
          trace := s.trace ++ [.countUsersIn [conv.SenderId, conv.ReceiverId],
            .findConversationByPair conv.SenderId conv.ReceiverId,
            .insertConversation
              { conv with ID := w.newId, CreatedAt := w.now1, UpdatedAt := w.now2 }] }) := by
  simp at hn
  simp [Create, validateUserInput, countUsersIn, findConversationByPair, insertConversation,
    Store.log, hS, hR, hc, hn, hf, hfind, hi]

open ConversationService in
theorem Create_invalid (sn : String) (w : World) (s : Store) (conv : Conversation)
    (h : conv.SenderId = NilObjectID ∨ conv.ReceiverId = NilObjectID) :
    Create sn w s conv = (.error (.plain "senderId and receiverId are required"), s) := by
  simp [Create, validateUserInput, h]

open ConversationService in
theorem Create_count_failed (sn : String) (w : World) (s : Store) (conv : Conversation)
    (hS : conv.SenderId ≠ NilObjectID) (hR : conv.ReceiverId ≠ NilObjectID) (m : String)
    (hc : s.health.userCount = some m) :
    Create sn w s conv =
      (.error (.custom (NewBadRequestError sn "One or both users do not exist")),
       s.log (.countUsersIn [conv.SenderId, conv.ReceiverId])) := by
  simp [Create, validateUserInput, countUsersIn, hS, hR, hc]

open ConversationService in
theorem Create_count_low (sn : String) (w : World) (s : Store) (conv : Conversation)
    (hS : conv.SenderId ≠ NilObjectID) (hR : conv.ReceiverId ≠ NilObjectID)
    (hc : s.health.userCount = none)
    (hn : (s.users.filter (fun u => [conv.SenderId, conv.ReceiverId].contains u.ID)).length < 2) :
    Create sn w s conv =
      (.error (.custom (NewBadRequestError sn "One or both users do not exist")),
       s.log (.countUsersIn [conv.SenderId, conv.ReceiverId])) := by
  simp at hn
  simp [Create, validateUserInput, countUsersIn, hS, hR, hc, hn]

open ConversationService in
theorem Create_find_failed (sn : String) (w : World) (s : Store) (conv : Conversation)
    (hS : conv.SenderId ≠ NilObjectID) (hR : conv.ReceiverId ≠ NilObjectID)
    (hc : s.health.userCount = none)
    (hn : 2 ≤ (s.users.filter (fun u => [conv.SenderId, conv.ReceiverId].contains u.ID)).length)
    (m : String) (hf : s.health.convFind = some m) :
    Create sn w s conv =
      (.error (.plain "internal server error"),
       (s.log (.countUsersIn [conv.SenderId, conv.ReceiverId])).log
         (.findConversationByPair conv.SenderId conv.ReceiverId)) := by
  simp at hn
  simp [Create, validateUserInput, countUsersIn, findConversationByPair, Store.log,
    hS, hR, hc, hn, hf]

open ConversationService in
theorem Create_found (sn : String) (w : World) (s : Store) (conv k : Conversation)
    (hS : conv.SenderId ≠ NilObjectID) (hR : conv.ReceiverId ≠ NilObjectID)
    (hc : s.health.userCount = none)
    (hn : 2 ≤ (s.users.filter (fun u => [conv.SenderId, conv.ReceiverId].contains u.ID)).length)
    (hf : s.health.convFind = none)
    (hfind : s.conversations.find?
      (fun k => k.SenderId == conv.SenderId && k.ReceiverId == conv.ReceiverId) = some k) :
    Create sn w s conv =
      (.error (.custom (NewConflictError sn "Conversation already exists")),
       (s.log (.countUsersIn [conv.SenderId, conv.ReceiverId])).log
         (.findConversationByPair conv.SenderId conv.ReceiverId)) := by
  simp at hn
  simp [Create, validateUserInput, countUsersIn, findConversationByPair, Store.log,
    hS, hR, hc, hn, hf, hfind]

open ConversationService in
theorem Create_insert_failed (sn : String) (w : World) (s : Store) (conv : Conversation)
    (hS : conv.SenderId ≠ NilObjectID) (hR : conv.ReceiverId ≠ NilObjectID)
    (hc : s.health.userCount = none)
    (hn : 2 ≤ (s.users.filter (fun u => [conv.SenderId, conv.ReceiverId].contains u.ID)).length)
    (hf : s.health.convFind = none)
    (hfind : s.conversations.find?
      (fun k => k.SenderId == conv.SenderId && k.ReceiverId == conv.ReceiverId) = none)
    (m : String) (hi : s.health.convInsert = some m) :
    Create sn w s conv =
      (.error (.driver m),
       ((s.log (.countUsersIn [conv.SenderId, conv.ReceiverId])).log
         (.findConversationByPair conv.SenderId conv.ReceiverId)).log
         (.insertConversation
           { conv with ID := w.newId, CreatedAt := w.now1, UpdatedAt := w.now2 })) := by
  simp at hn
  simp [Create, validateUserInput, countUsersIn, findConversationByPair, insertConversation,
    Store.log, hS, hR, hc, hn, hf, hfind, hi]

theorem find_pair_none_iff (cs : List Conversation) (a b : ObjectID) :
    cs.find? (fun k => k.SenderId == a && k.ReceiverId == b) = none ↔
      ¬ ∃ k ∈ cs, k.SenderId = a ∧ k.ReceiverId = b := by
  simp [List.find?_eq_none]

theorem find_pair_append_self (cs : List Conversation) (c : Conversation)
    (h : cs.find? (fun k => k.SenderId == c.SenderId && k.ReceiverId == c.ReceiverId) = none) :
    (cs ++ [c]).find? (fun k => k.SenderId == c.SenderId && k.ReceiverId == c.ReceiverId)
      = some c := by
  simp [List.find?_append, h]

theorem pair_count_ge_two_iff (us : List User) (a b : ObjectID)
    (hnd : (us.map User.ID).Nodup) :
    2 ≤ (us.filter (fun u => [a, b].contains u.ID)).length ↔
      a ≠ b ∧ (∃ u ∈ us, u.ID = a) ∧ (∃ u ∈ us, u.ID = b) := by
  rw [filter_pair_length]
  have ha := idCount_le_one us a hnd
  have hb := idCount_le_one us b hnd
  have pa := idCount_pos_iff us a
  have pb := idCount_pos_iff us b
  by_cases hab : a = b
  · simp only [hab, if_true]
    constructor
    · intro h; omega
    · intro h; exact absurd rfl h.1
  · simp only [hab, if_false]
    constructor
    · intro h
      exact ⟨hab, pa.mp (by omega), pb.mp (by omega)⟩
    · intro h
      have h1 := pa.mpr h.2.1
      have h2 := pb.mpr h.2.2
      omega

theorem pair_count_ge_two_of (us : List User) (a b : ObjectID) (hab : a ≠ b)
    (ha : ∃ u ∈ us, u.ID = a) (hb : ∃ u ∈ us, u.ID = b) :
    2 ≤ (us.filter (fun u => [a, b].contains u.ID)).length := by
  rw [filter_pair_length]
  have h1 := (idCount_pos_iff us a).mpr ha
  have h2 := (idCount_pos_iff us b).mpr hb
  simp only [hab, if_false]
  omega

theorem Create_pair_of_fst {sn : String} {w : World} {s : Store} {conv c : Conversation}
    (h : (ConversationService.Create sn w s conv).1 = .ok c) :
    ConversationService.Create sn w s conv =
      (.ok c, (ConversationService.Create sn w s conv).2) :=
  Prod.ext h rfl

/-! ## Claims about `ConversationService.Create` -/

/-- C1: when a first `Create` succeeds, a second `Create` with the same
`(senderId, receiverId)` on the store it left behind returns the Conflict error
"Conversation already exists" and leaves the conversation collection, and so
its count, unchanged. -/
theorem create_again_conflict (sn : String) (w1 w2 : World) (s s1 : Store)
    (conv conv2 c : Conversation)
    (h1 : ConversationService.Create sn w1 s conv = (.ok c, s1))
    (hS : conv2.SenderId = conv.SenderId) (hR : conv2.ReceiverId = conv.ReceiverId) :
    (ConversationService.Create sn w2 s1 conv2).1 =
        .error (.custom (NewConflictError sn "Conversation already exists")) ∧
      (ConversationService.Create sn w2 s1 conv2).2.conversations = s1.conversations ∧
      (ConversationService.Create sn w2 s1 conv2).2.conversations.length =
        s1.conversations.length := by
  obtain ⟨hs, hr, hc, hn, hf, hfind, -, hcv, hs1⟩ := Create_ok_inv h1
  have hcS : c.SenderId = conv.SenderId := by rw [hcv]
  have hcR : c.ReceiverId = conv.ReceiverId := by rw [hcv]
  have hfound : s1.conversations.find?
      (fun k => k.SenderId == conv2.SenderId && k.ReceiverId == conv2.ReceiverId) = some c := by
    rw [hs1, hS, hR, ← hcS, ← hcR]
    exact find_pair_append_self _ _ (by rw [hcS, hcR]; exact hfind)
  have key := Create_found sn w2 s1 conv2 c (by rw [hS]; exact hs) (by rw [hR]; exact hr)
    (by rw [hs1]; exact hc) (by rw [hs1, hS, hR]; exact hn) (by rw [hs1]; exact hf) hfound
  rw [key]
  exact ⟨rfl, rfl, rfl⟩

/-- Users 1 and 2 exist: creating the conversation (1, 2) succeeds, creating it
again is a Conflict and the collection still holds one record. -/
theorem create_again_conflict_witness :
    (ConversationService.Create "chat" ⟨⟨7⟩, 5, 6⟩
        (ConversationService.Create "chat" ⟨⟨7⟩, 5, 6⟩ twoUsers (request 1 2)).2
        (request 1 2)).1 =
        .error (.custom (NewConflictError "chat" "Conversation already exists")) ∧
      (ConversationService.Create "chat" ⟨⟨7⟩, 5, 6⟩
        (ConversationService.Create "chat" ⟨⟨7⟩, 5, 6⟩ twoUsers (request 1 2)).2
        (request 1 2)).2.conversations.length = 1 := by
  have h := create_again_conflict "chat" ⟨⟨7⟩, 5, 6⟩ ⟨⟨7⟩, 5, 6⟩ twoUsers
    (ConversationService.Create "chat" ⟨⟨7⟩, 5, 6⟩ twoUsers (request 1 2)).2
    (request 1 2) (request 1 2) ⟨⟨7⟩, ⟨1⟩, ⟨2⟩, 5, 6⟩ rfl rfl rfl
  exact ⟨h.1, h.2.2.trans (by decide)⟩

/-- C2, as stated, fails: user 1 exists, the store is healthy and holds no
conversation, both ids of the request (1, 1) are non-nil and each has a user
record, yet `Create` answers BadRequest because the two-id count is 1. -/
theorem create_iff_counterexample :
    (request 1 1).SenderId ≠ NilObjectID ∧ (request 1 1).ReceiverId ≠ NilObjectID ∧
      (∃ u ∈ twoUsers.users, u.ID = (request 1 1).SenderId) ∧
      (∃ u ∈ twoUsers.users, u.ID = (request 1 1).ReceiverId) ∧
      (¬ ∃ k ∈ twoUsers.conversations,
        k.SenderId = (request 1 1).SenderId ∧ k.ReceiverId = (request 1 1).ReceiverId) ∧
      twoUsers.health = Health.healthy ∧
      (ConversationService.Create "chat" ⟨⟨7⟩, 5, 6⟩ twoUsers (request 1 1)).1 =
        .error (.custom (NewBadRequestError "chat" "One or both users do not exist")) := by
  refine ⟨by decide, by decide, by decide, by decide, by decide, rfl, rfl⟩

/-- C2, amended: in a store whose user ids are pairwise distinct and whose calls
do not fail, `Create` succeeds exactly when both ids are non-nil and different
from each other, each has a user record, and no conversation with that ordered
pair exists; on success the conversation collection grows by exactly the
returned record, which carries the input ids and the freshly allocated
(non-nil) id. -/
theorem create_succeeds_iff (sn : String) (w : World) (s : Store) (conv : Conversation)
    (hnd : (s.users.map User.ID).Nodup)
    (hc : s.health.userCount = none) (hf : s.health.convFind = none)
    (hi : s.health.convInsert = none) (hid : w.newId ≠ NilObjectID) :
    ((∃ c, (ConversationService.Create sn w s conv).1 = .ok c) ↔
        (conv.SenderId ≠ NilObjectID ∧ conv.ReceiverId ≠ NilObjectID ∧
          conv.SenderId ≠ conv.ReceiverId ∧
          (∃ u ∈ s.users, u.ID = conv.SenderId) ∧ (∃ u ∈ s.users, u.ID = conv.ReceiverId) ∧
          ¬ ∃ k ∈ s.conversations,
            k.SenderId = conv.SenderId ∧ k.ReceiverId = conv.ReceiverId)) ∧
      (∀ c, (ConversationService.Create sn w s conv).1 = .ok c →
        (ConversationService.Create sn w s conv).2.conversations = s.conversations ++ [c] ∧
          (ConversationService.Create sn w s conv).2.conversations.length =
            s.conversations.length + 1 ∧
          c.SenderId = conv.SenderId ∧ c.ReceiverId = conv.ReceiverId ∧
          c.ID = w.newId ∧ c.ID ≠ NilObjectID) := by
  constructor
  · constructor
    · rintro ⟨c, hc1⟩
      obtain ⟨hs, hr, -, hn, -, hfind, -, -, -⟩ := Create_ok_inv (Create_pair_of_fst hc1)
      obtain ⟨hab, ha, hb⟩ := (pair_count_ge_two_iff s.users _ _ hnd).mp hn
      exact ⟨hs, hr, hab, ha, hb, (find_pair_none_iff _ _ _).mp hfind⟩
    · rintro ⟨hs, hr, hab, ha, hb, hno⟩
      have hn := pair_count_ge_two_of s.users _ _ hab ha hb
      have key := Create_ok_of sn w s conv hs hr hc hn hf
        ((find_pair_none_iff _ _ _).mpr hno) hi
      exact ⟨_, by rw [key]⟩
  · intro c hc1
    obtain ⟨-, -, -, -, -, -, -, hcv, hs1⟩ := Create_ok_inv (Create_pair_of_fst hc1)
    rw [hs1]
    refine ⟨rfl, by simp, by rw [hcv], by rw [hcv], by rw [hcv], ?_⟩
    rw [hcv]
    exact hid

/-- Users 1 and 2 exist and no conversation does: `Create` of (1, 2) succeeds and
the collection then holds the returned record. -/
theorem create_succeeds_iff_witness :
    (∃ c, (ConversationService.Create "chat" ⟨⟨7⟩, 5, 6⟩ twoUsers (request 1 2)).1 = .ok c) ∧
      (ConversationService.Create "chat" ⟨⟨7⟩, 5, 6⟩ twoUsers (request 1 2)).2.conversations =
        [⟨⟨7⟩, ⟨1⟩, ⟨2⟩, 5, 6⟩] := by
  have h := create_succeeds_iff "chat" ⟨⟨7⟩, 5, 6⟩ twoUsers (request 1 2)
    (by decide) rfl rfl rfl (by decide)
  exact ⟨h.1.mpr ⟨by decide, by decide, by decide, by decide, by decide, by decide⟩,
    (h.2 ⟨⟨7⟩, ⟨1⟩, ⟨2⟩, 5, 6⟩ rfl).1⟩

/-- C3: with non-nil ids, when fewer than two user records match the ids
`senderId`, `receiverId` (in particular, with pairwise distinct user ids, when
one of the two ids has no user record), `Create` fails with the BadRequest error
"One or both users do not exist" and the conversation collection is as before. -/
theorem create_missing_user_bad_request (sn : String) (w : World) (s : Store)
    (conv : Conversation)
    (hS : conv.SenderId ≠ NilObjectID) (hR : conv.ReceiverId ≠ NilObjectID) :
    ((s.users.filter
          (fun u => decide (u.ID = conv.SenderId ∨ u.ID = conv.ReceiverId))).length < 2 →
        (ConversationService.Create sn w s conv).1 =
            .error (.custom (NewBadRequestError sn "One or both users do not exist")) ∧
          (ConversationService.Create sn w s conv).2.conversations = s.conversations) ∧
      ((s.users.map User.ID).Nodup →
        ((¬ ∃ u ∈ s.users, u.ID = conv.SenderId) ∨ (¬ ∃ u ∈ s.users, u.ID = conv.ReceiverId)) →
        (ConversationService.Create sn w s conv).1 =
            .error (.custom (NewBadRequestError sn "One or both users do not exist")) ∧
          (ConversationService.Create sn w s conv).2.conversations = s.conversations) := by
  have main : (s.users.filter
        (fun u => [conv.SenderId, conv.ReceiverId].contains u.ID)).length < 2 →
      (ConversationService.Create sn w s conv).1 =
          .error (.custom (NewBadRequestError sn "One or both users do not exist")) ∧
        (ConversationService.Create sn w s conv).2.conversations = s.conversations := by
    intro hn
    cases hc : s.health.userCount with
    | some m => rw [Create_count_failed sn w s conv hS hR m hc]; exact ⟨rfl, rfl⟩
    | none => rw [Create_count_low sn w s conv hS hR hc hn]; exact ⟨rfl, rfl⟩
  constructor
  · intro hn
    apply main
    simpa using hn
  · intro hnd hmiss
    apply main
    by_contra hge
    obtain ⟨-, ha, hb⟩ :=
      (pair_count_ge_two_iff s.users conv.SenderId conv.ReceiverId hnd).mp (by omega)
    rcases hmiss with h | h
    · exact h ha
    · exact h hb

/-- User 9 does not exist: `Create` of (1, 9) is a BadRequest and inserts
nothing. -/
theorem create_missing_user_bad_request_witness :
    (ConversationService.Create "chat" ⟨⟨7⟩, 5, 6⟩ twoUsers (request 1 9)).1 =
        .error (.custom (NewBadRequestError "chat" "One or both users do not exist")) ∧
      (ConversationService.Create "chat" ⟨⟨7⟩, 5, 6⟩ twoUsers (request 1 9)).2.conversations
        = [] :=
  (create_missing_user_bad_request "chat" ⟨⟨7⟩, 5, 6⟩ twoUsers (request 1 9)
    (by decide) (by decide)).1 (by decide)

/-- C4: when `senderId` or `receiverId` is the nil id, `Create` fails with the
validation error before any store call: the store it leaves behind, trace of
driver calls included, is the store it was given. -/
theorem create_nil_id_rejected (sn : String) (w : World) (s : Store) (conv : Conversation)
    (h : conv.SenderId = NilObjectID ∨ conv.ReceiverId = NilObjectID) :
    ConversationService.Create sn w s conv =
        (.error (.plain "senderId and receiverId are required"), s) ∧
      (ConversationService.Create sn w s conv).2.trace = s.trace := by
  rw [Create_invalid sn w s conv h]
  exact ⟨rfl, rfl⟩

/-- A request with the nil sender id is rejected and the store is untouched. -/
theorem create_nil_id_rejected_witness :
    ConversationService.Create "chat" ⟨⟨7⟩, 5, 6⟩ twoUsers (request 0 2) =
      (.error (.plain "senderId and receiverId are required"), twoUsers) :=
  (create_nil_id_rejected "chat" ⟨⟨7⟩, 5, 6⟩ twoUsers (request 0 2) (Or.inl rfl)).1

/-- Whatever `Create` returns, the conversation collection is either as before
or longer by one record with the requested pair, which no earlier record had. -/
theorem Create_conversations_cases (sn : String) (w : World) (s : Store)
    (conv : Conversation) :
    (ConversationService.Create sn w s conv).2.conversations = s.conversations ∨
      ∃ c, (ConversationService.Create sn w s conv).2.conversations = s.conversations ++ [c] ∧
        c.pair = conv.pair ∧ conv.pair ∉ s.conversations.map Conversation.pair := by
  by_cases hv : conv.SenderId = NilObjectID ∨ conv.ReceiverId = NilObjectID
  · left; rw [Create_invalid sn w s conv hv]
  · have hS : conv.SenderId ≠ NilObjectID := fun h => hv (Or.inl h)
    have hR : conv.ReceiverId ≠ NilObjectID := fun h => hv (Or.inr h)
    cases hc : s.health.userCount with
    | some m => left; rw [Create_count_failed sn w s conv hS hR m hc]; rfl
    | none =>
      by_cases hn : (s.users.filter
          (fun u => [conv.SenderId, conv.ReceiverId].contains u.ID)).length < 2
      · left; rw [Create_count_low sn w s conv hS hR hc hn]; rfl
      · have hn2 : 2 ≤ (s.users.filter
            (fun u => [conv.SenderId, conv.ReceiverId].contains u.ID)).length := by omega
        cases hf : s.health.convFind with
        | some m => left; rw [Create_find_failed sn w s conv hS hR hc hn2 m hf]; rfl
        | none =>
          cases hfind : s.conversations.find?
              (fun k => k.SenderId == conv.SenderId && k.ReceiverId == conv.ReceiverId) with
          | some k => left; rw [Create_found sn w s conv k hS hR hc hn2 hf hfind]; rfl
          | none =>
            cases hi : s.health.convInsert with
            | some m =>
              left; rw [Create_insert_failed sn w s conv hS hR hc hn2 hf hfind m hi]; rfl
            | none =>
              right
              rw [Create_ok_of sn w s conv hS hR hc hn2 hf hfind hi]
              refine ⟨_, rfl, rfl, ?_⟩
              have hno := (find_pair_none_iff _ _ _).mp hfind
              intro hmem
              obtain ⟨k, hk, hkp⟩ := List.mem_map.mp hmem
              have h1 : k.SenderId = conv.SenderId := congrArg Prod.fst hkp
              have h2 : k.ReceiverId = conv.ReceiverId := congrArg Prod.snd hkp
              exact hno ⟨k, hk, h1, h2⟩

theorem Create_keeps_pairUnique (sn : String) (w : World) (s : Store) (conv : Conversation)
    (h : PairUnique s.conversations) :
    PairUnique (ConversationService.Create sn w s conv).2.conversations := by
  rcases Create_conversations_cases sn w s conv with h0 | ⟨c, h1, hp, hnew⟩
  · rw [h0]; exact h
  · rw [h1]
    unfold PairUnique at h ⊢
    rw [List.map_append, List.map_singleton, hp]
    refine List.Nodup.append h (List.nodup_singleton _) ?_
    intro x hx hx2
    rw [List.mem_singleton] at hx2
    exact hnew (hx2 ▸ hx)

/-- C5: from a conversation collection with at most one record per ordered
`(senderId, receiverId)` pair, every sequential run of `Create` calls, whatever
their arguments and whatever the health of the store at each call, leaves a
collection with at most one record per ordered pair. -/
theorem runCreates_pair_unique (sn : String) (ks : List CreateCall) (s : Store)
    (h : PairUnique s.conversations) :
    PairUnique (runCreates sn ks s).conversations := by
  induction ks generalizing s with
  | nil => exact h
  | cons k ks ih =>
    unfold runCreates
    exact ih _ (Create_keeps_pairUnique sn k.world { s with health := k.health }
      k.conversation h)

/-- Three calls on the empty collection, (1, 2) twice and then (2, 1): two records
are stored, with different ordered pairs. -/
theorem runCreates_pair_unique_witness :
    PairUnique (runCreates "chat"
        [⟨Health.healthy, ⟨⟨7⟩, 5, 6⟩, request 1 2⟩,
         ⟨Health.healthy, ⟨⟨8⟩, 7, 8⟩, request 1 2⟩,
         ⟨Health.healthy, ⟨⟨9⟩, 9, 9⟩, request 2 1⟩] twoUsers).conversations ∧
      (runCreates "chat"
        [⟨Health.healthy, ⟨⟨7⟩, 5, 6⟩, request 1 2⟩,
         ⟨Health.healthy, ⟨⟨8⟩, 7, 8⟩, request 1 2⟩,
         ⟨Health.healthy, ⟨⟨9⟩, 9, 9⟩, request 2 1⟩] twoUsers).conversations.length = 2 :=
  ⟨runCreates_pair_unique "chat" _ twoUsers (by decide), by decide⟩

/-- C6: users `a` and `b` are distinct, non-nil and both have a record, the store's
calls do not fail, a conversation `(a, b)` is stored and none `(b, a)`: `Create`
of `(b, a)` is not a Conflict, it succeeds, and the collection then holds the old
`(a, b)` record and, appended, the new `(b, a)` record, which is none of the
earlier records. -/
theorem create_reversed_pair_succeeds (sn : String) (w : World) (s : Store)
    (a b : ObjectID) (conv : Conversation)
    (hab : a ≠ b) (ha0 : a ≠ NilObjectID) (hb0 : b ≠ NilObjectID)
    (hua : ∃ u ∈ s.users, u.ID = a) (hub : ∃ u ∈ s.users, u.ID = b)
    (hc : s.health.userCount = none) (hf : s.health.convFind = none)
    (hi : s.health.convInsert = none)
    (hex : ∃ k ∈ s.conversations, k.SenderId = a ∧ k.ReceiverId = b)
    (hno : ¬ ∃ k ∈ s.conversations, k.SenderId = b ∧ k.ReceiverId = a)
    (hcS : conv.SenderId = b) (hcR : conv.ReceiverId = a) :
    (ConversationService.Create sn w s conv).1 ≠
        .error (.custom (NewConflictError sn "Conversation already exists")) ∧
      ∃ c, (ConversationService.Create sn w s conv).1 = .ok c ∧
        c.SenderId = b ∧ c.ReceiverId = a ∧
        (ConversationService.Create sn w s conv).2.conversations = s.conversations ++ [c] ∧
        c ∉ s.conversations ∧
        ∃ k ∈ (ConversationService.Create sn w s conv).2.conversations,
          k.SenderId = a ∧ k.ReceiverId = b ∧ k ≠ c := by
  subst hcS hcR
  have hn := pair_count_ge_two_of s.users _ _ (Ne.symm hab) hub hua
  have key := Create_ok_of sn w s conv hb0 ha0 hc hn hf
    ((find_pair_none_iff _ _ _).mpr hno) hi
  rw [key]
  refine ⟨by simp, _, rfl, rfl, rfl, rfl, ?_, ?_⟩
  · intro hmem
    exact hno ⟨_, hmem, rfl, rfl⟩
  · obtain ⟨k, hk, hk1, hk2⟩ := hex
    refine ⟨k, List.mem_append_left _ hk, hk1, hk2, ?_⟩
    intro hkc
    apply hab
    rw [← hk1, hkc]

/-- The store holds the conversation (1, 2) only: `Create` of (2, 1) succeeds and
the collection then holds two records. -/
theorem create_reversed_pair_succeeds_witness :
    ∃ c, (ConversationService.Create "chat" ⟨⟨8⟩, 7, 8⟩
          (ConversationService.Create "chat" ⟨⟨7⟩, 5, 6⟩ twoUsers (request 1 2)).2
          (request 2 1)).1 = .ok c ∧
      (ConversationService.Create "chat" ⟨⟨8⟩, 7, 8⟩
          (ConversationService.Create "chat" ⟨⟨7⟩, 5, 6⟩ twoUsers (request 1 2)).2
          (request 2 1)).2.conversations =
        [⟨⟨7⟩, ⟨1⟩, ⟨2⟩, 5, 6⟩, c] := by
  obtain ⟨c, h1, -, -, h2, -⟩ := (create_reversed_pair_succeeds "chat" ⟨⟨8⟩, 7, 8⟩
    (ConversationService.Create "chat" ⟨⟨7⟩, 5, 6⟩ twoUsers (request 1 2)).2
    ⟨1⟩ ⟨2⟩ (request 2 1) (by decide) (by decide) (by decide) (by decide) (by decide)
    rfl rfl rfl (by decide) (by decide) rfl rfl).2
  exact ⟨c, h1, h2⟩

/-- C7, on the code: users 1 and 2 exist, the ids of the request are non-nil and
the user count fails with a driver error; `Create` answers with the BadRequest
error "One or both users do not exist" (status 400), which is not an internal
error. On the same request, a failing conversation lookup is answered with the
internal error "internal server error". -/
theorem create_count_failure_bad_request :
    (request 1 2).SenderId ≠ NilObjectID ∧ (request 1 2).ReceiverId ≠ NilObjectID ∧
      (countUsersIn countDown [⟨1⟩, ⟨2⟩]).1 = .error (.driver "connection reset") ∧
      (ConversationService.Create "chat" ⟨⟨7⟩, 5, 6⟩ countDown (request 1 2)).1 =
        .error (.custom (NewBadRequestError "chat" "One or both users do not exist")) ∧
      (GoError.custom (NewBadRequestError "chat" "One or both users do not exist")).isInternal
        = false ∧
      (findConversationByPair lookupDown ⟨1⟩ ⟨2⟩).1 = .error (.driver "timeout") ∧
      (ConversationService.Create "chat" ⟨⟨7⟩, 5, 6⟩ lookupDown (request 1 2)).1 =
        .error (.plain "internal server error") ∧
      (GoError.plain "internal server error").isInternal = true := by
  refine ⟨by decide, by decide, rfl, rfl, by decide, rfl, rfl, by decide⟩

/-- The three store failures of `Create`, path by path, for non-nil ids: a failing
user count is answered with the BadRequest error "One or both users do not
exist"; a failing existing-conversation lookup with the error "internal server
error"; a failing insert with the driver's own error. -/
theorem create_store_failure_errors (sn : String) (w : World) (s : Store)
    (conv : Conversation)
    (hS : conv.SenderId ≠ NilObjectID) (hR : conv.ReceiverId ≠ NilObjectID) :
    (∀ m, s.health.userCount = some m →
        (ConversationService.Create sn w s conv).1 =
          .error (.custom (NewBadRequestError sn "One or both users do not exist"))) ∧
      (∀ m, (∃ n, (countUsersIn s [conv.SenderId, conv.ReceiverId]).1 = .ok n ∧ 2 ≤ n) →
        s.health.convFind = some m →
        (ConversationService.Create sn w s conv).1 = .error (.plain "internal server error") ∧
          (GoError.plain "internal server error").isInternal = true) ∧
      (∀ m, (∃ n, (countUsersIn s [conv.SenderId, conv.ReceiverId]).1 = .ok n ∧ 2 ≤ n) →
        (findConversationByPair s conv.SenderId conv.ReceiverId).1 = .error .ErrNoDocuments →
        s.health.convInsert = some m →
        (ConversationService.Create sn w s conv).1 = .error (.driver m) ∧
          (GoError.driver m).isInternal = true) := by
  have count_inv : (∃ n, (countUsersIn s [conv.SenderId, conv.ReceiverId]).1 = .ok n ∧ 2 ≤ n) →
      s.health.userCount = none ∧
        2 ≤ (s.users.filter
          (fun u => [conv.SenderId, conv.ReceiverId].contains u.ID)).length := by
    rintro ⟨n, hn, h2⟩
    unfold countUsersIn at hn
    cases hc : s.health.userCount with
    | some m => simp [hc] at hn
    | none =>
      simp only [hc] at hn
      injection hn with hn
      exact ⟨rfl, by omega⟩
  refine ⟨?_, ?_, ?_⟩
  · intro m hc
    rw [Create_count_failed sn w s conv hS hR m hc]
  · intro m hcount hf
    obtain ⟨hc, hn⟩ := count_inv hcount
    rw [Create_find_failed sn w s conv hS hR hc hn m hf]
    exact ⟨rfl, by decide⟩
  · intro m hcount hfind hi
    obtain ⟨hc, hn⟩ := count_inv hcount
    unfold findConversationByPair at hfind
    cases hf : s.health.convFind with
    | some m2 => simp [hf] at hfind
    | none =>
      simp only [hf] at hfind
      cases hfd : s.conversations.find?
          (fun k => k.SenderId == conv.SenderId && k.ReceiverId == conv.ReceiverId) with
      | some k => simp [hfd] at hfind
      | none =>
        rw [Create_insert_failed sn w s conv hS hR hc hn hf hfd m hi]
        exact ⟨rfl, rfl⟩

/-- The conversation lookup of `lookupDown` fails: `Create` answers with the
internal error "internal server error". -/
theorem create_store_failure_errors_witness :
    (ConversationService.Create "chat" ⟨⟨7⟩, 5, 6⟩ lookupDown (request 1 2)).1 =
        .error (.plain "internal server error") ∧
      (GoError.plain "internal server error").isInternal = true :=
  (create_store_failure_errors "chat" ⟨⟨7⟩, 5, 6⟩ lookupDown (request 1 2)
    (by decide) (by decide)).2.1 "timeout" ⟨2, rfl, by decide⟩ rfl

/-! ## Claims about `GetConversationWithUsers` -/

theorem Message_Create_invalid (w : World) (s : Store) (message : Message)
    (h : message.SenderId = NilObjectID ∨ message.ConversationId = NilObjectID) :
    MessageService.Create w s message =
      (.error (.plain "ConversationId and SenderId are required"), s) := by
  simp [MessageService.Create, MessageService.validateUserInput, h]

theorem Message_Create_ok (w : World) (s : Store) (message : Message)
    (hS : message.SenderId ≠ NilObjectID) (hC : message.ConversationId ≠ NilObjectID)
    (hi : s.health.msgInsert = none) :
    MessageService.Create w s message =
      (.ok { message with ID := w.newId, CreatedAt := w.now1, UpdatedAt := w.now2 },
       { s with
          messages := s.messages ++
            [{ message with ID := w.newId, CreatedAt := w.now1, UpdatedAt := w.now2 }],
          trace := s.trace ++ [.insertMessage
            { message with ID := w.newId, CreatedAt := w.now1, UpdatedAt := w.now2 }] }) := by
  simp [MessageService.Create, MessageService.validateUserInput, insertMessage, hS, hC, hi]

theorem Message_Create_insert_failed (w : World) (s : Store) (message : Message)
    (hS : message.SenderId ≠ NilObjectID) (hC : message.ConversationId ≠ NilObjectID)
    (m : String) (hi : s.health.msgInsert = some m) :
    MessageService.Create w s message =
      (.error (.driver m), s.log (.insertMessage
        { message with ID := w.newId, CreatedAt := w.now1, UpdatedAt := w.now2 })) := by
  simp [MessageService.Create, MessageService.validateUserInput, insertMessage, hS, hC, hi]

/-- C9: in a store whose message insert does not fail, `MessageService.Create`
succeeds exactly when `conversationId` and `senderId` are both non-nil, whatever
the conversation collection holds; on success the message collection grows by
exactly the returned record, whose conversation id, sender id and body are the
input's; otherwise the validation error is returned and nothing is inserted. -/
theorem message_create_iff (w : World) (s : Store) (message : Message)
    (hi : s.health.msgInsert = none) :
    ((∃ m, (MessageService.Create w s message).1 = .ok m) ↔
        (message.ConversationId ≠ NilObjectID ∧ message.SenderId ≠ NilObjectID)) ∧
      (∀ cs, (MessageService.Create w { s with conversations := cs } message).1 =
        (MessageService.Create w s message).1) ∧
      (∀ m, (MessageService.Create w s message).1 = .ok m →
        (MessageService.Create w s message).2.messages = s.messages ++ [m] ∧
          (MessageService.Create w s message).2.messages.length = s.messages.length + 1 ∧
          m.ConversationId = message.ConversationId ∧ m.SenderId = message.SenderId ∧
          m.Message = message.Message) ∧
      ((¬ ∃ m, (MessageService.Create w s message).1 = .ok m) →
        MessageService.Create w s message =
          (.error (.plain "ConversationId and SenderId are required"), s)) := by
  by_cases hv : message.SenderId = NilObjectID ∨ message.ConversationId = NilObjectID
  · have hcs : ∀ cs, MessageService.Create w { s with conversations := cs } message =
        (.error (.plain "ConversationId and SenderId are required"),
          { s with conversations := cs }) :=
      fun cs => Message_Create_invalid w _ message hv
    refine ⟨?_, ?_, ?_, ?_⟩
    · rw [Message_Create_invalid w s message hv]
      constructor
      · rintro ⟨m, hm⟩; cases hm
      · rintro ⟨h1, h2⟩
        rcases hv with h | h
        · exact absurd h h2
        · exact absurd h h1
    · intro cs
      rw [hcs cs, Message_Create_invalid w s message hv]
    · intro m hm
      rw [Message_Create_invalid w s message hv] at hm
      cases hm
    · intro _
      exact Message_Create_invalid w s message hv
  · have hS : message.SenderId ≠ NilObjectID := fun h => hv (Or.inl h)
    have hC : message.ConversationId ≠ NilObjectID := fun h => hv (Or.inr h)
    have key := Message_Create_ok w s message hS hC hi
    refine ⟨?_, ?_, ?_, ?_⟩
    · rw [key]
      exact ⟨fun _ => ⟨hC, hS⟩, fun _ => ⟨_, rfl⟩⟩
    · intro cs
      rw [key, Message_Create_ok w { s with conversations := cs } message hS hC hi]
    · intro m hm
      rw [key] at hm ⊢
      injection hm with hm
      subst hm
      exact ⟨rfl, by simp, rfl, rfl, rfl⟩
    · intro hno
      exact absurd ⟨_, by rw [key]⟩ hno

/-- A message for conversation 99, which is not stored: the message is saved all
the same. -/
theorem message_create_iff_witness :
    (MessageService.Create ⟨⟨7⟩, 5, 6⟩ twoUsers (outgoing 99 1 "hi")).1 =
        .ok ⟨⟨7⟩, ⟨99⟩, ⟨1⟩, "hi", 5, 6⟩ ∧
      (MessageService.Create ⟨⟨7⟩, 5, 6⟩ twoUsers (outgoing 99 1 "hi")).2.messages =
        [⟨⟨7⟩, ⟨99⟩, ⟨1⟩, "hi", 5, 6⟩] := by
  have h := (message_create_iff ⟨⟨7⟩, 5, 6⟩ twoUsers (outgoing 99 1 "hi") rfl).2.2.1
    ⟨⟨7⟩, ⟨99⟩, ⟨1⟩, "hi", 5, 6⟩ rfl
  exact ⟨rfl, h.1⟩

/-- C10, as stated, fails: the clock is read twice, and when it has moved
between the two readings the created message has `createdAt ≠ updatedAt`. -/
theorem message_timestamps_counterexample :
    ∃ m, (MessageService.Create ⟨⟨7⟩, 5, 6⟩ twoUsers (outgoing 99 1 "hi")).1 = .ok m ∧
      m.ID ≠ NilObjectID ∧ m.CreatedAt = 5 ∧ m.UpdatedAt = 6 ∧ m.CreatedAt ≠ m.UpdatedAt :=
  ⟨⟨⟨7⟩, ⟨99⟩, ⟨1⟩, "hi", 5, 6⟩, rfl, by decide, rfl, rfl, by decide⟩

/-- C10, amended: a message returned by a successful `MessageService.Create`
carries the identifier the allocator handed out, so a non-nil id when the
allocator never hands out the nil id; its `createdAt` is the first clock reading
and its `updatedAt` the second, so the two are equal exactly when the two
readings are. -/
theorem message_id_and_timestamps (w : World) (s : Store) (message m : Message)
    (hid : w.newId ≠ NilObjectID)
    (h : (MessageService.Create w s message).1 = .ok m) :
    m.ID = w.newId ∧ m.ID ≠ NilObjectID ∧ m.CreatedAt = w.now1 ∧ m.UpdatedAt = w.now2 ∧
      (m.CreatedAt = m.UpdatedAt ↔ w.now1 = w.now2) := by
  have hm : m = { message with ID := w.newId, CreatedAt := w.now1, UpdatedAt := w.now2 } := by
    by_cases hv : message.SenderId = NilObjectID ∨ message.ConversationId = NilObjectID
    · rw [Message_Create_invalid w s message hv] at h
      cases h
    · have hS : message.SenderId ≠ NilObjectID := fun h => hv (Or.inl h)
      have hC : message.ConversationId ≠ NilObjectID := fun h => hv (Or.inr h)
      cases hi : s.health.msgInsert with
      | some e =>
        rw [Message_Create_insert_failed w s message hS hC e hi] at h
        cases h
      | none =>
        rw [Message_Create_ok w s message hS hC hi] at h
        injection h with h
        exact h.symm
  subst hm
  exact ⟨rfl, hid, rfl, rfl, Iff.rfl⟩

/-- A clock that does not move between the two readings gives equal
timestamps. -/
theorem message_id_and_timestamps_witness :
    ∃ m, (MessageService.Create ⟨⟨7⟩, 5, 5⟩ twoUsers (outgoing 99 1 "hi")).1 = .ok m ∧
      m.ID ≠ NilObjectID ∧ m.CreatedAt = m.UpdatedAt := by
  have h := message_id_and_timestamps ⟨⟨7⟩, 5, 5⟩ twoUsers (outgoing 99 1 "hi")
    ⟨⟨7⟩, ⟨99⟩, ⟨1⟩, "hi", 5, 5⟩ (by decide) rfl
  exact ⟨_, rfl, h.2.1, h.2.2.2.2.mpr rfl⟩

/-! ## The hub -/

theorem broadcastLoop_spec (message : Bytes) (fails : Conn → Bool) (todo : List Conn) (h : Hub) :
    (broadcastLoop message fails todo h).writes =
        h.writes ++ todo.map (fun c => (c, TextMessage, message)) ∧
      (broadcastLoop message fails todo h).closed = h.closed ++ todo.filter fails ∧
      (broadcastLoop message fails todo h).clients =
        h.clients.filter (fun c => !(decide (c ∈ todo) && fails c)) := by
  induction todo generalizing h with
  | nil => simp [broadcastLoop]
  | cons c rest ih =>
    unfold broadcastLoop
    by_cases hf : fails c = true
    · simp only [hf, if_true]
      obtain ⟨h1, h2, h3⟩ := ih
        { clients := deleteClient h.clients c
          writes := h.writes ++ [(c, TextMessage, message)]
          closed := h.closed ++ [c] }
      refine ⟨?_, ?_, ?_⟩
      · rw [h1]; simp
      · rw [h2]; simp [List.filter_cons, hf]
      · rw [h3]
        simp only [deleteClient, List.filter_filter]
        apply List.filter_congr
        intro x _
        by_cases hx : x = c
        · subst hx; simp [hf]
        · simp [hx]
    · have hf2 : fails c = false := by simpa using hf
      simp only [hf2, Bool.false_eq_true, if_false]
      obtain ⟨h1, h2, h3⟩ := ih { h with writes := h.writes ++ [(c, TextMessage, message)] }
      refine ⟨?_, ?_, ?_⟩
      · rw [h1]; simp
      · rw [h2]; simp [List.filter_cons, hf2]
      · rw [h3]
        apply List.filter_congr
        intro x _
        by_cases hx : x = c
        · subst hx; simp [hf2]
        · simp [hx]

/-- C11: handling one broadcast of `f` on a hub whose live set is `S` makes
exactly the writes `(c, TextMessage, f)` for `c` in `S`, one per connection and
none on a connection outside `S`; the live set afterwards is exactly the
connections of `S` whose write succeeded, and the connections closed are exactly
those of `S` whose write failed. -/
theorem broadcast_step (h : Hub) (f : Bytes) (fails : Conn → Bool)
    (hnd : h.clients.Nodup) :
    (handleMessages h (.broadcast f fails)).writes =
        h.writes ++ h.clients.map (fun c => (c, TextMessage, f)) ∧
      (∀ c, ((h.clients.map (fun c => (c, TextMessage, f))).filter
          (fun w => w.1 == c)).length = if c ∈ h.clients then 1 else 0) ∧
      (∀ w ∈ h.clients.map (fun c => (c, TextMessage, f)),
        w.1 ∈ h.clients ∧ w.2.1 = TextMessage ∧ w.2.2 = f) ∧
      (handleMessages h (.broadcast f fails)).clients =
        h.clients.filter (fun c => !fails c) ∧
      (∀ c, c ∈ (handleMessages h (.broadcast f fails)).clients ↔
        c ∈ h.clients ∧ fails c = false) ∧
      (handleMessages h (.broadcast f fails)).closed =
        h.closed ++ h.clients.filter fails ∧
      (∀ c, c ∈ h.clients → fails c = true →
        c ∈ (handleMessages h (.broadcast f fails)).closed ∧
          c ∉ (handleMessages h (.broadcast f fails)).clients) := by
  obtain ⟨h1, h2, h3⟩ := broadcastLoop_spec f fails h.clients h
  have hcl : (handleMessages h (.broadcast f fails)).clients =
      h.clients.filter (fun c => !fails c) := by
    show (broadcastLoop f fails h.clients h).clients = _
    rw [h3]
    apply List.filter_congr
    intro x hx
    simp [hx]
  refine ⟨h1, ?_, ?_, hcl, ?_, h2, ?_⟩
  · intro c
    rw [List.filter_map, List.length_map]
    have : (List.filter ((fun w : Conn × Nat × Bytes => w.1 == c) ∘
        fun c => (c, TextMessage, f)) h.clients) = h.clients.filter (fun x => x == c) := by
      apply List.filter_congr
      intro x _
      rfl
    rw [this]
    rw [← List.countP_eq_length_filter, ← List.count_eq_countP]
    by_cases hm : c ∈ h.clients
    · simp [hm, List.count_eq_one_of_mem hnd hm]
    · simp [hm, List.count_eq_zero_of_not_mem hm]
  · intro w hw
    obtain ⟨c, hc, rfl⟩ := List.mem_map.mp hw
    exact ⟨hc, rfl, rfl⟩
  · intro c
    rw [hcl]
    simp [List.mem_filter]
  · intro c hc hf
    constructor
    · show c ∈ (broadcastLoop f fails h.clients h).closed
      rw [h2]
      exact List.mem_append_right _ (List.mem_filter.mpr ⟨hc, hf⟩)
    · rw [hcl]
      simp [List.mem_filter, hf]

/-- Connections 1, 2, 3 are live and the write to 2 fails: three writes are made,
2 is closed, 1 and 3 stay live. -/
theorem broadcast_step_witness :
    (handleMessages ⟨[1, 2, 3], [], []⟩ (.broadcast [104, 105] (fun c => c == 2))).writes =
        [(1, TextMessage, [104, 105]), (2, TextMessage, [104, 105]),
          (3, TextMessage, [104, 105])] ∧
      (handleMessages ⟨[1, 2, 3], [], []⟩ (.broadcast [104, 105] (fun c => c == 2))).clients =
        [1, 3] ∧
      (handleMessages ⟨[1, 2, 3], [], []⟩ (.broadcast [104, 105] (fun c => c == 2))).closed =
        [2] := by
  have h := broadcast_step ⟨[1, 2, 3], [], []⟩ [104, 105] (fun c => c == 2) (by decide)
  exact ⟨h.1.trans rfl, h.2.2.2.1.trans rfl, h.2.2.2.2.2.1.trans rfl⟩

theorem mem_deleteClient (clients : List Conn) (conn x : Conn) :
    x ∈ deleteClient clients conn ↔ x ∈ clients ∧ x ≠ conn := by
  simp [deleteClient, List.mem_filter]

theorem closedBy_not_live (h : Hub) (e : HubEvent) (c : Conn) (hc : c ∈ closedBy h e) :
    c ∉ (handleMessages h e).clients := by
  cases e with
  | register conn => simp [closedBy, handleMessages] at hc
  | unregister conn =>
    by_cases hm : conn ∈ h.clients
    · simp [closedBy, handleMessages, hm] at hc
      subst hc
      simp [handleMessages, hm, mem_deleteClient]
    · simp [closedBy, handleMessages, hm] at hc
  | broadcast message fails =>
    obtain ⟨-, h2, h3⟩ := broadcastLoop_spec message fails h.clients h
    have hc2 : c ∈ h.clients.filter fails := by
      simpa [closedBy, handleMessages, h2] using hc
    obtain ⟨hm, hf⟩ := List.mem_filter.mp hc2
    show c ∉ (broadcastLoop message fails h.clients h).clients
    rw [h3]
    simp [List.mem_filter, hm, hf]

theorem not_live_step (h : Hub) (e : HubEvent) (c : Conn) (hc : c ∉ h.clients)
    (he : e.isRegister c = false) : c ∉ (handleMessages h e).clients := by
  cases e with
  | register conn =>
    have hne : conn ≠ c := by simpa [HubEvent.isRegister] using he
    by_cases hm : conn ∈ h.clients
    · simpa [handleMessages, hm] using hc
    · simp [handleMessages, hm, hc, Ne.symm hne]
  | unregister conn =>
    by_cases hm : conn ∈ h.clients
    · simp [handleMessages, hm, mem_deleteClient, hc]
    · simpa [handleMessages, hm] using hc
  | broadcast message fails =>
    obtain ⟨-, -, h3⟩ := broadcastLoop_spec message fails h.clients h
    show c ∉ (broadcastLoop message fails h.clients h).clients
    rw [h3]
    simp [List.mem_filter, hc]

theorem not_live_run (es : List HubEvent) (h : Hub) (c : Conn) (hc : c ∉ h.clients)
    (he : ∀ e ∈ es, e.isRegister c = false) : c ∉ (runHub es h).clients := by
  induction es generalizing h with
  | nil => exact hc
  | cons e es ih =>
    unfold runHub
    exact ih _ (not_live_step h e c hc (he e (List.mem_cons_self _ _)))
      (fun e' he' => he e' (List.mem_cons_of_mem _ he'))

theorem runHub_append (es fs : List HubEvent) (h : Hub) :
    runHub (es ++ fs) h = runHub fs (runHub es h) := by
  induction es generalizing h with
  | nil => rfl
  | cons e es ih => simp [runHub, ih]

/-- C18: handling `register c` makes the live set `S ∪ {c}` and closes nothing;
handling `unregister c` makes it `S \ {c}` and closes `c` once when `c` is live,
and changes nothing when it is not; and after any sequence of hub events, a
connection the hub closed at some event and that no later event registered is
not live. -/
theorem hub_register_unregister (h : Hub) (c : Conn) :
    ((∀ x, x ∈ (handleMessages h (.register c)).clients ↔ x ∈ h.clients ∨ x = c) ∧
        (handleMessages h (.register c)).closed = h.closed ∧
        (handleMessages h (.register c)).writes = h.writes) ∧
      (c ∈ h.clients →
        (∀ x, x ∈ (handleMessages h (.unregister c)).clients ↔ x ∈ h.clients ∧ x ≠ c) ∧
          (handleMessages h (.unregister c)).closed = h.closed ++ [c] ∧
          (handleMessages h (.unregister c)).writes = h.writes) ∧
      (c ∉ h.clients → handleMessages h (.unregister c) = h) ∧
      (∀ pre e post, c ∈ closedBy (runHub pre h) e →
        (∀ e2 ∈ post, HubEvent.isRegister c e2 = false) →
        c ∉ (runHub (pre ++ e :: post) h).clients) := by
  refine ⟨⟨?_, ?_, ?_⟩, ?_, ?_, ?_⟩
  · intro x
    by_cases hm : c ∈ h.clients
    · simp only [handleMessages, hm, if_true]
      constructor
      · exact Or.inl
      · rintro (hx | rfl)
        · exact hx
        · exact hm
    · simp [handleMessages, hm]
  · rfl
  · rfl
  · intro hm
    refine ⟨?_, ?_, ?_⟩
    · intro x
      simp [handleMessages, hm, mem_deleteClient]
    · simp [handleMessages, hm]
    · simp [handleMessages, hm]
  · intro hm
    simp [handleMessages, hm]
  · intro pre e post hcl hpost
    rw [runHub_append]
    show c ∉ (runHub post (handleMessages (runHub pre h) e)).clients
    exact not_live_run post _ c (closedBy_not_live _ e c hcl) hpost

/-- Connection 2 is registered, fails a broadcast write and is then unregistered
(a no-op): it is closed once and is not live, while 1 and 3 are. -/
theorem hub_register_unregister_witness :
    (runHub [.register 2, .broadcast [104] (fun c => c == 2), .unregister 2, .register 3]
        ⟨[1], [], []⟩).clients = [1, 3] ∧
      (runHub [.register 2, .broadcast [104] (fun c => c == 2), .unregister 2, .register 3]
        ⟨[1], [], []⟩).closed = [2] ∧
      2 ∉ (runHub ([.register 2] ++ .broadcast [104] (fun c => c == 2) ::
        [.unregister 2, .register 3]) ⟨[1], [], []⟩).clients :=
  ⟨rfl, rfl, (hub_register_unregister ⟨[1], [], []⟩ 2).2.2.2 [.register 2]
    (.broadcast [104] (fun c => c == 2)) [.unregister 2, .register 3]
    (by decide) (by decide)⟩

/-! ## Self-conversations -/

/-- C19: in a store whose user ids are pairwise distinct, `Create` with
`senderId = receiverId = u`, `u` non-nil, fails with the BadRequest error "One or
both users do not exist" and inserts nothing, the two-id count being at most 1;
hence every conversation `Create` returns has `senderId ≠ receiverId`. -/
theorem self_conversation_rejected (sn : String) (w : World) (s : Store)
    (hnd : (s.users.map User.ID).Nodup) :
    (∀ conv : Conversation, conv.SenderId ≠ NilObjectID →
      conv.ReceiverId = conv.SenderId →
        (s.users.filter
          (fun u => [conv.SenderId, conv.ReceiverId].contains u.ID)).length ≤ 1 ∧
        (ConversationService.Create sn w s conv).1 =
          .error (.custom (NewBadRequestError sn "One or both users do not exist")) ∧
        (ConversationService.Create sn w s conv).2.conversations = s.conversations) ∧
      (∀ conv c, (ConversationService.Create sn w s conv).1 = .ok c →
        c.SenderId ≠ c.ReceiverId) := by
  constructor
  · intro conv hu heq
    have hlow : (s.users.filter
        (fun u => [conv.SenderId, conv.ReceiverId].contains u.ID)).length < 2 := by
      by_contra hge
      obtain ⟨hne, -, -⟩ :=
        (pair_count_ge_two_iff s.users conv.SenderId conv.ReceiverId hnd).mp (by omega)
      exact hne heq.symm
    refine ⟨by omega, ?_⟩
    cases hc : s.health.userCount with
    | some m =>
      rw [Create_count_failed sn w s conv hu (by rw [heq]; exact hu) m hc]
      exact ⟨rfl, rfl⟩
    | none =>
      rw [Create_count_low sn w s conv hu (by rw [heq]; exact hu) hc hlow]
      exact ⟨rfl, rfl⟩
  · intro conv c hok
    obtain ⟨-, -, -, hn, -, -, -, hcv, -⟩ := Create_ok_inv (Create_pair_of_fst hok)
    obtain ⟨hne, -, -⟩ :=
      (pair_count_ge_two_iff s.users conv.SenderId conv.ReceiverId hnd).mp hn
    rw [hcv]
    exact hne

/-- User 1 exists: `Create` of (1, 1) is a BadRequest and the collection stays
empty. -/
theorem self_conversation_rejected_witness :
    (ConversationService.Create "chat" ⟨⟨7⟩, 5, 6⟩ twoUsers (request 1 1)).1 =
        .error (.custom (NewBadRequestError "chat" "One or both users do not exist")) ∧
      (ConversationService.Create "chat" ⟨⟨7⟩, 5, 6⟩ twoUsers (request 1 1)).2.conversations
        = [] :=
  ((self_conversation_rejected "chat" ⟨⟨7⟩, 5, 6⟩ twoUsers (by decide)).1 (request 1 1)
    (by decide) rfl).2

/-! ## Identifier decoding -/

theorem hexDigit_ascii (c : Char) (h : (hexDigit c).isSome = true) : c.toNat ≤ 127 := by
  unfold hexDigit at h
  split at h
  · omega
  · split at h
    · omega
    · split at h
      · omega
      · simp at h

theorem utf8Size_ascii (c : Char) (h : c.toNat ≤ 127) : c.utf8Size = 1 := by
  unfold Char.utf8Size
  have : c.val ≤ 127 := by
    rw [UInt32.le_def]
    exact h
  simp [this]

theorem utf8ByteSize_go_ascii (l : List Char) (h : ∀ c ∈ l, c.toNat ≤ 127) :
    String.utf8ByteSize.go l = l.length := by
  induction l with
  | nil => rfl
  | cons c cs ih =>
    simp only [String.utf8ByteSize.go, List.length_cons]
    rw [ih (fun x hx => h x (List.mem_cons_of_mem _ hx)),
      utf8Size_ascii c (h c (List.mem_cons_self _ _))]

theorem utf8ByteSize_hex (s : String) (h : ∀ c ∈ s.toList, (hexDigit c).isSome = true) :
    s.utf8ByteSize = s.length := by
  cases s with
  | mk l => exact utf8ByteSize_go_ascii l (fun c hc => hexDigit_ascii c (h c hc))

/-- Decoding succeeds exactly on strings of 24 hexadecimal digits. -/
theorem ObjectIDFromHex_ok_iff (s : String) :
    (∃ id, ObjectIDFromHex s = .ok id) ↔
      s.length = 24 ∧ ∀ c ∈ s.toList, (hexDigit c).isSome = true := by
  unfold ObjectIDFromHex
  constructor
  · rintro ⟨id, h⟩
    split at h
    · cases h
    · rename_i hlen
      split at h
      · rename_i hall
        have hall2 : ∀ c ∈ s.toList, (hexDigit c).isSome = true := by
          simpa [List.all_eq_true] using hall
        have := utf8ByteSize_hex s hall2
        exact ⟨by omega, hall2⟩
      · cases h
  · rintro ⟨hlen, hall⟩
    have hb := utf8ByteSize_hex s hall
    have hlen2 : ¬ s.utf8ByteSize ≠ 24 := by omega
    have hall2 : s.toList.all (fun c => (hexDigit c).isSome) = true := by
      simpa [List.all_eq_true] using hall
    simp only [hlen2, if_false, hall2, if_true]
    exact ⟨_, rfl⟩

/-- The function `parseObjectID` succeeds exactly on a JSON string of 24
hexadecimal digits: an absent entry, a non-string entry and any other string
are errors. -/
theorem parseObjectID_ok_iff (x : Option Json) :
    (∃ id, parseObjectID x = .ok id) ↔
      ∃ s, x = some (.str s) ∧ s.length = 24 ∧
        ∀ c ∈ s.toList, (hexDigit c).isSome = true := by
  constructor
  · rintro ⟨id, h⟩
    unfold parseObjectID at h
    cases hx : asString x with
    | none => simp [hx] at h
    | some s =>
      simp only [hx] at h
      have hs : x = some (.str s) := by
        unfold asString at hx
        split at hx
        · injection hx with hx; subst hx; rfl
        · cases hx
      exact ⟨s, hs, (ObjectIDFromHex_ok_iff s).mp ⟨id, h⟩⟩
  · rintro ⟨s, rfl, hs⟩
    obtain ⟨id, hid⟩ := (ObjectIDFromHex_ok_iff s).mpr hs
    exact ⟨id, by simp [parseObjectID, asString, hid]⟩

theorem parseObjectID_cases (x : Option Json) :
    (∃ id, parseObjectID x = .ok id) ∨ (∃ e, parseObjectID x = .error e) := by
  cases h : parseObjectID x with
  | ok id => exact Or.inl ⟨id, rfl⟩
  | error e => exact Or.inr ⟨e, rfl⟩

/-! ## The dispatcher -/

/-- C13: a frame that decodes to an object whose action is a string other than
the three recognised ones is answered with success, and the gateway state is
untouched: no driver call is added to the store trace, no collection changes,
and nothing is written to the originating socket. -/
theorem unknown_action_silent (codec : JsonCodec) (sn : String) (w : World) (g : Gateway)
    (mt : Nat) (message : Bytes) (request : Request) (action : String)
    (hreq : codec.unmarshal message = .ok request)
    (hact : request.lookup "action" = some (.str action))
    (h1 : action ≠ "create_conversation") (h2 : action ≠ "get_conversationById")
    (h3 : action ≠ "send_message") :
    processMessage codec sn w g mt message = (.ok, g) ∧
      (processMessage codec sn w g mt message).2.store = g.store ∧
      (processMessage codec sn w g mt message).2.store.trace = g.store.trace ∧
      (processMessage codec sn w g mt message).2.socket.writes = g.socket.writes := by
  have key : processMessage codec sn w g mt message = (.ok, g) := by
    simp [processMessage, hreq, hact, asString, h1, h2, h3]
  rw [key]
  exact ⟨rfl, rfl, rfl, rfl⟩

/-- The frame with action "nope" is answered with success and changes nothing. -/
theorem unknown_action_silent_witness :
    processMessage sampleCodec "chat" ⟨⟨7⟩, 5, 6⟩ quietGateway TextMessage [4] =
      (.ok, quietGateway) :=
  (unknown_action_silent sampleCodec "chat" ⟨⟨7⟩, 5, 6⟩ quietGateway TextMessage [4]
    [("action", .str "nope")] "nope" rfl rfl (by decide) (by decide) (by decide)).1

/-- C15: a frame that decodes to an object whose action entry is absent or not a
string fails with the error "missing or invalid action field", and the gateway
state is untouched: no driver call, no write to the originating socket. -/
theorem missing_action_rejected (codec : JsonCodec) (sn : String) (w : World) (g : Gateway)
    (mt : Nat) (message : Bytes) (request : Request)
    (hreq : codec.unmarshal message = .ok request)
    (hact : ∀ s, request.lookup "action" ≠ some (.str s)) :
    processMessage codec sn w g mt message =
        (.error (.plain "missing or invalid action field"), g) ∧
      (processMessage codec sn w g mt message).2.store.trace = g.store.trace ∧
      (processMessage codec sn w g mt message).2.socket.writes = g.socket.writes := by
  have hnone : asString (request.lookup "action") = none := by
    unfold asString
    split
    · rename_i s hs
      exact absurd hs (hact s)
    · rfl
  have key : processMessage codec sn w g mt message =
      (.error (.plain "missing or invalid action field"), g) := by
    simp [processMessage, hreq, hnone]
  rw [key]
  exact ⟨rfl, rfl, rfl⟩

/-- The frame without an action entry is rejected and changes nothing. -/
theorem missing_action_rejected_witness :
    processMessage sampleCodec "chat" ⟨⟨7⟩, 5, 6⟩ quietGateway TextMessage [5] =
      (.error (.plain "missing or invalid action field"), quietGateway) :=
  (missing_action_rejected sampleCodec "chat" ⟨⟨7⟩, 5, 6⟩ quietGateway TextMessage [5]
    [("senderId", .str hexA)] rfl (by intro s h; cases h)).1

/-- C12, on the code: the frame `send_message` with well-formed ids and the number
5 as message makes the dispatcher panic on the unguarded type assertion; no
error is returned and nothing is inserted. -/
theorem send_message_number_panics :
    processMessage sampleCodec "chat" ⟨⟨7⟩, 5, 6⟩ quietGateway TextMessage [1] =
        (.panic "interface conversion: interface \x7b\x7d is float64, not string", quietGateway) ∧
      (processMessage sampleCodec "chat" ⟨⟨7⟩, 5, 6⟩ quietGateway TextMessage [1]).2.store.messages
        = [] := by
  constructor <;> rfl

/-- Every `send_message` frame whose two ids decode and whose message entry is not
a string makes the dispatcher panic, with the gateway state untouched. -/
theorem send_message_non_string_panics (codec : JsonCodec) (sn : String) (w : World)
    (g : Gateway) (mt : Nat) (message : Bytes) (request : Request) (cid sid : ObjectID)
    (hreq : codec.unmarshal message = .ok request)
    (hact : request.lookup "action" = some (.str "send_message"))
    (hc : parseObjectID (request.lookup "conversationId") = .ok cid)
    (hs : parseObjectID (request.lookup "senderId") = .ok sid)
    (hm : asString (request.lookup "message") = none) :
    processMessage codec sn w g mt message =
      (.panic ("interface conversion: interface \x7b\x7d is " ++
        goTypeName (request.lookup "message") ++ ", not string"), g) := by
  have ha : asString (request.lookup "action") = some "send_message" := by rw [hact]; rfl
  simp [processMessage, hreq, ha, handleSendMessage, hc, hs, hm]

/-- C14, as stated, fails: in the frame `create_conversation` with both ids
malformed, `receiverId` is not 24 hexadecimal characters, yet the error returned
names `senderId`, the field read first, and not `receiverId`. -/
theorem malformed_id_counterexample :
    parseObjectID (twoBadIds.lookup "receiverId") =
        .error (.driver "the provided hex string is not a valid ObjectID") ∧
      processMessage sampleCodec "chat" ⟨⟨7⟩, 5, 6⟩ quietGateway TextMessage [3] =
        (.error (.plain "invalid senderId: the provided hex string is not a valid ObjectID"),
          quietGateway) ∧
      GoError.plain "invalid senderId: the provided hex string is not a valid ObjectID" ≠
        GoError.plain "invalid receiverId: the provided hex string is not a valid ObjectID" := by
  refine ⟨rfl, rfl, by decide⟩

/-- C14, amended: an id-bearing entry decodes exactly when it is a JSON string
of 24 hexadecimal characters; when an id-bearing entry of a recognised action
does not decode, the dispatcher returns an error naming the first such entry in
the order the handler reads them (`senderId` then `receiverId` for
`create_conversation`; `_id`, reported as `conversationID`, for
`get_conversationById`; `conversationId` then `senderId` for `send_message`), and
the gateway state is untouched: no driver call and no write to the socket. -/
theorem malformed_id_rejected (codec : JsonCodec) (sn : String) (w : World) (g : Gateway)
    (mt : Nat) (message : Bytes) (request : Request)
    (hreq : codec.unmarshal message = .ok request) :
    (∀ x, (∃ e, parseObjectID x = .error e) ↔
        ¬ ∃ s, x = some (.str s) ∧ s.length = 24 ∧
          ∀ c ∈ s.toList, (hexDigit c).isSome = true) ∧
      (request.lookup "action" = some (.str "create_conversation") →
        (∀ e, parseObjectID (request.lookup "senderId") = .error e →
          processMessage codec sn w g mt message =
            (.error (.plain ("invalid senderId: " ++ e.Error)), g)) ∧
        (∀ id e, parseObjectID (request.lookup "senderId") = .ok id →
          parseObjectID (request.lookup "receiverId") = .error e →
          processMessage codec sn w g mt message =
            (.error (.plain ("invalid receiverId: " ++ e.Error)), g))) ∧
      (request.lookup "action" = some (.str "get_conversationById") →
        ∀ e, parseObjectID (request.lookup "_id") = .error e →
          processMessage codec sn w g mt message =
            (.error (.plain ("invalid conversationID: " ++ e.Error)), g)) ∧
      (request.lookup "action" = some (.str "send_message") →
        (∀ e, parseObjectID (request.lookup "conversationId") = .error e →
          processMessage codec sn w g mt message =
            (.error (.plain ("invalid conversationId: " ++ e.Error)), g)) ∧
        (∀ id e, parseObjectID (request.lookup "conversationId") = .ok id →
          parseObjectID (request.lookup "senderId") = .error e →
          processMessage codec sn w g mt message =
            (.error (.plain ("invalid senderId: " ++ e.Error)), g))) := by
  refine ⟨?_, ?_, ?_, ?_⟩
  · intro x
    rw [← parseObjectID_ok_iff]
    constructor
    · rintro ⟨e, he⟩ ⟨id, hid⟩
      rw [he] at hid
      cases hid
    · intro hno
      rcases parseObjectID_cases x with h | h
      · exact absurd h hno
      · exact h
  · intro hact
    constructor
    · intro e he
      simp [processMessage, hreq, hact, asString, handleCreateConversation, he]
    · intro id e hid he
      simp [processMessage, hreq, hact, asString, handleCreateConversation, hid, he]
  · intro hact e he
    simp [processMessage, hreq, hact, asString, handleGetConversationById, he]
  · intro hact
    constructor
    · intro e he
      simp [processMessage, hreq, hact, asString, handleSendMessage, he]
    · intro id e hid he
      simp [processMessage, hreq, hact, asString, handleSendMessage, hid, he]

/-- The frame `create_conversation` whose `senderId` is "zzz" is rejected with an
error naming `senderId`, and the gateway state is untouched. -/
theorem malformed_id_rejected_witness :
    processMessage sampleCodec "chat" ⟨⟨7⟩, 5, 6⟩ quietGateway TextMessage [3] =
      (.error (.plain ("invalid senderId: " ++
        (GoError.driver "the provided hex string is not a valid ObjectID").Error)),
        quietGateway) :=
  ((malformed_id_rejected sampleCodec "chat" ⟨⟨7⟩, 5, 6⟩ quietGateway TextMessage [3]
    twoBadIds rfl).2.1 rfl).1 _ rfl

/-! ## Response frames -/

theorem Orderly_nil : Orderly [] := by
  constructor
  · rfl
  · intro pre post m h; simp at h
  · intro pre post m out h; simp at h
  · intro pre post msg h; simp at h
  · intro pre post h; simp at h
  · simp

theorem Orderly_failed (msg : String) : Orderly [.readFailed msg, .unregistered, .closed] := by
  constructor
  · rfl
  · intro pre post m h
    rcases pre with _ | ⟨p1, _ | ⟨p2, _ | ⟨p3, _ | ⟨p4, pre4⟩⟩⟩⟩ <;> simp at h
  · intro pre post m out h
    rcases pre with _ | ⟨p1, _ | ⟨p2, _ | ⟨p3, _ | ⟨p4, pre4⟩⟩⟩⟩ <;> simp at h
  · intro pre post m h
    rcases pre with _ | ⟨p1, _ | ⟨p2, _ | ⟨p3, _ | ⟨p4, pre4⟩⟩⟩⟩ <;> simp at h
    exact h.2.symm
  · intro pre post h
    rcases pre with _ | ⟨p1, _ | ⟨p2, _ | ⟨p3, _ | ⟨p4, pre4⟩⟩⟩⟩ <;> simp at h
    exact ⟨[], msg, by simp [h.1]⟩
  · simp [List.count_cons]

theorem Orderly_panicked (m : Bytes) (p : String) :
    Orderly [.received m, .broadcast m, .processed m (.panic p), .closed] := by
  constructor
  · rfl
  · intro pre post m2 h
    rcases pre with _ | ⟨p1, _ | ⟨p2, _ | ⟨p3, _ | ⟨p4, _ | ⟨p5, pre5⟩⟩⟩⟩⟩ <;> simp at h
    obtain ⟨rfl, rfl⟩ := h
    exact ⟨_, _, rfl⟩
  · intro pre post m2 out h
    rcases pre with _ | ⟨p1, _ | ⟨p2, _ | ⟨p3, _ | ⟨p4, _ | ⟨p5, pre5⟩⟩⟩⟩⟩ <;> simp at h
    obtain ⟨rfl, rfl, ⟨rfl, rfl⟩, rfl⟩ := h
    exact ⟨[], rfl⟩
  · intro pre post msg h
    rcases pre with _ | ⟨p1, _ | ⟨p2, _ | ⟨p3, _ | ⟨p4, _ | ⟨p5, pre5⟩⟩⟩⟩⟩ <;> simp at h
  · intro pre post h
    rcases pre with _ | ⟨p1, _ | ⟨p2, _ | ⟨p3, _ | ⟨p4, _ | ⟨p5, pre5⟩⟩⟩⟩⟩ <;> simp at h
  · simp [List.count_cons]

theorem Orderly_step (m : Bytes) (out : Outcome) (es : List Event) (h : Orderly es) :
    Orderly (.received m :: .broadcast m :: .processed m out :: es) := by
  constructor
  · simp [broadcastsOf, receivedOf, h.echo]
  · intro pre post m2 heq
    rcases pre with _ | ⟨p1, _ | ⟨p2, _ | ⟨p3, pre3⟩⟩⟩ <;> simp at heq
    · obtain ⟨rfl, rfl⟩ := heq
      exact ⟨_, _, rfl⟩
    · exact h.afterRead pre3 post m2 heq.2.2.2
  · intro pre post m2 out2 heq
    rcases pre with _ | ⟨p1, _ | ⟨p2, _ | ⟨p3, pre3⟩⟩⟩ <;> simp at heq
    · obtain ⟨rfl, rfl, ⟨rfl, rfl⟩, rfl⟩ := heq
      exact ⟨[], rfl⟩
    · obtain ⟨rfl, rfl, rfl, heq⟩ := heq
      obtain ⟨pre2, rfl⟩ := h.beforeDispatch pre3 post m2 out2 heq
      exact ⟨.received m :: .broadcast m :: .processed m out :: pre2, by simp⟩
  · intro pre post msg heq
    rcases pre with _ | ⟨p1, _ | ⟨p2, _ | ⟨p3, pre3⟩⟩⟩ <;> simp at heq
    exact h.afterFailure pre3 post msg heq.2.2.2
  · intro pre post heq
    rcases pre with _ | ⟨p1, _ | ⟨p2, _ | ⟨p3, pre3⟩⟩⟩ <;> simp at heq
    obtain ⟨rfl, rfl, rfl, heq⟩ := heq
    obtain ⟨pre2, msg, rfl⟩ := h.beforeUnregister pre3 post heq
    exact ⟨.received m :: .broadcast m :: .processed m out :: pre2, msg, by simp⟩
  · have := h.once
    simpa [List.count_cons] using this

theorem readLoop_frame_panic (codec : JsonCodec) (sn : String) (mt : Nat) (m : Bytes)
    (w : World) (rest : List ReadResult) (g g1 : Gateway) (p : String)
    (h : processMessage codec sn w g mt m = (.panic p, g1)) :
    readLoop codec sn (.frame mt m w :: rest) g =
      ([.received m, .broadcast m, .processed m (.panic p), .closed], g1) := by
  simp [readLoop, h]

theorem readLoop_frame_continue (codec : JsonCodec) (sn : String) (mt : Nat) (m : Bytes)
    (w : World) (rest : List ReadResult) (g : Gateway)
    (h : ∀ p, (processMessage codec sn w g mt m).1 ≠ .panic p) :
    readLoop codec sn (.frame mt m w :: rest) g =
      (.received m :: .broadcast m ::
          .processed m (processMessage codec sn w g mt m).1 ::
          (readLoop codec sn rest (processMessage codec sn w g mt m).2).1,
        (readLoop codec sn rest (processMessage codec sn w g mt m).2).2) := by
  generalize hpm : processMessage codec sn w g mt m = r at h
  obtain ⟨out, g1⟩ := r
  cases out with
  | ok => simp [readLoop, hpm]
  | error e => simp [readLoop, hpm]
  | panic p => exact absurd rfl (h p)

theorem readLoop_orderly (codec : JsonCodec) (sn : String) (reads : List ReadResult)
    (g : Gateway) : Orderly (readLoop codec sn reads g).1 := by
  induction reads generalizing g with
  | nil => exact Orderly_nil
  | cons r rest ih =>
    cases r with
    | error msg => exact Orderly_failed msg
    | frame mt m w =>
      by_cases hp : ∃ p, (processMessage codec sn w g mt m).1 = .panic p
      · obtain ⟨p, hp⟩ := hp
        rw [readLoop_frame_panic codec sn mt m w rest g _ p (Prod.ext hp rfl)]
        exact Orderly_panicked m p
      · rw [readLoop_frame_continue codec sn mt m w rest g (fun p h => hp ⟨p, h⟩)]
        exact Orderly_step m _ _ (ih _)

/-- The shape of the read-loop trace, for every sequence of read results: the
frames pushed onto the broadcast channel are exactly the frames read, unchanged
and in order; every frame read is at once followed by its broadcast and then by
its dispatch, whatever the dispatch returns, and every dispatch is preceded by
the read and the broadcast of its frame; a dispatch that returns, with or
without error, is followed by the rest of the loop; every failed read is
followed by the unregister send and the close and nothing else; the unregister
send only follows a failed read and occurs at most once. -/
theorem read_loop_trace (codec : JsonCodec) (sn : String) (reads : List ReadResult)
    (g : Gateway) :
    broadcastsOf (readLoop codec sn reads g).1 = receivedOf (readLoop codec sn reads g).1 ∧
      (∀ pre post m, (readLoop codec sn reads g).1 = pre ++ .received m :: post →
        ∃ out post2, post = .broadcast m :: .processed m out :: post2) ∧
      (∀ pre post m out, (readLoop codec sn reads g).1 = pre ++ .processed m out :: post →
        ∃ pre2, pre = pre2 ++ [.received m, .broadcast m]) ∧
      (∀ mt m w rest, reads = .frame mt m w :: rest →
        (∀ p, (processMessage codec sn w g mt m).1 ≠ .panic p) →
        (readLoop codec sn reads g).1 =
          .received m :: .broadcast m :: .processed m (processMessage codec sn w g mt m).1 ::
            (readLoop codec sn rest (processMessage codec sn w g mt m).2).1) ∧
      (∀ pre post msg, (readLoop codec sn reads g).1 = pre ++ .readFailed msg :: post →
        post = [.unregistered, .closed]) ∧
      (∀ pre post, (readLoop codec sn reads g).1 = pre ++ .unregistered :: post →
        ∃ pre2 msg, pre = pre2 ++ [.readFailed msg]) ∧
      (readLoop codec sn reads g).1.count .unregistered ≤ 1 ∧
      (HandleConnections codec sn true reads g).1 =
        .registered :: (readLoop codec sn reads g).1 := by
  have h := readLoop_orderly codec sn reads g
  refine ⟨h.echo, h.afterRead, h.beforeDispatch, ?_, h.afterFailure, h.beforeUnregister,
    h.once, rfl⟩
  intro mt m w rest hreads hnp
  rw [hreads, readLoop_frame_continue codec sn mt m w rest g hnp]

/-- A frame without action is read, then the read fails: the frame is broadcast
and dispatched, the dispatch error does not stop the loop, and the failed read
is followed by the unregister send and the close. -/
theorem read_loop_trace_witness :
    (readLoop sampleCodec "chat" [.frame TextMessage [5] ⟨⟨7⟩, 5, 6⟩, .error "EOF"]
        quietGateway).1 =
        [.received [5], .broadcast [5],
          .processed [5] (.error (.plain "missing or invalid action field")),
          .readFailed "EOF", .unregistered, .closed] ∧
      (readLoop sampleCodec "chat" [.frame TextMessage [5] ⟨⟨7⟩, 5, 6⟩, .error "EOF"]
        quietGateway).1.count .unregistered ≤ 1 :=
  ⟨rfl, (read_loop_trace sampleCodec "chat"
    [.frame TextMessage [5] ⟨⟨7⟩, 5, 6⟩, .error "EOF"] quietGateway).2.2.2.2.2.2.1⟩

theorem loopEnd_frame_panic (codec : JsonCodec) (sn : String) (mt : Nat) (m : Bytes)
    (w : World) (rest : List ReadResult) (g g1 : Gateway) (p : String)
    (h : processMessage codec sn w g mt m = (.panic p, g1)) :
    loopEnd codec sn (.frame mt m w :: rest) g = .panicked m p := by
  simp [loopEnd, h]

theorem loopEnd_frame_continue (codec : JsonCodec) (sn : String) (mt : Nat) (m : Bytes)
    (w : World) (rest : List ReadResult) (g : Gateway)
    (h : ∀ p, (processMessage codec sn w g mt m).1 ≠ .panic p) :
    loopEnd codec sn (.frame mt m w :: rest) g =
      loopEnd codec sn rest (processMessage codec sn w g mt m).2 := by
  generalize hpm : processMessage codec sn w g mt m = r at h
  obtain ⟨out, g1⟩ := r
  cases out with
  | ok => simp [loopEnd, hpm]
  | error e => simp [loopEnd, hpm]
  | panic p => exact absurd rfl (h p)

/-- The end of the read-loop trace, by the way the loop ends. A failed read that
the loop reaches is recorded and followed by exactly one unregister send and
the close; a panic of the dispatcher is followed by the close alone, with no
unregister send in the whole trace; a loop still waiting has sent no unregister
and closed nothing. -/
theorem readLoop_ending (codec : JsonCodec) (sn : String) (reads : List ReadResult)
    (g : Gateway) :
    (∀ msg, loopEnd codec sn reads g = .readError msg →
        (∃ pre, (readLoop codec sn reads g).1 =
          pre ++ [.readFailed msg, .unregistered, .closed]) ∧
        (readLoop codec sn reads g).1.count .unregistered = 1) ∧
      (∀ m p, loopEnd codec sn reads g = .panicked m p →
        (∃ pre, (readLoop codec sn reads g).1 = pre ++ [.processed m (.panic p), .closed]) ∧
        (readLoop codec sn reads g).1.count .unregistered = 0) ∧
      (loopEnd codec sn reads g = .waiting →
        (readLoop codec sn reads g).1.count .unregistered = 0 ∧
        (readLoop codec sn reads g).1.count .closed = 0) := by
  induction reads generalizing g with
  | nil =>
    refine ⟨?_, ?_, ?_⟩
    · intro msg h; simp [loopEnd] at h
    · intro m p h; simp [loopEnd] at h
    · intro _; simp [readLoop]
  | cons r rest ih =>
    cases r with
    | error msg0 =>
      refine ⟨?_, ?_, ?_⟩
      · intro msg h
        simp only [loopEnd, LoopEnd.readError.injEq] at h
        subst h
        exact ⟨⟨[], rfl⟩, by simp [readLoop, List.count_cons]⟩
      · intro m p h; simp [loopEnd] at h
      · intro h; simp [loopEnd] at h
    | frame mt m w =>
      by_cases hp : ∃ p, (processMessage codec sn w g mt m).1 = .panic p
      · obtain ⟨p, hp⟩ := hp
        rw [readLoop_frame_panic codec sn mt m w rest g _ p (Prod.ext hp rfl),
          loopEnd_frame_panic codec sn mt m w rest g _ p (Prod.ext hp rfl)]
        refine ⟨?_, ?_, ?_⟩
        · intro msg h; cases h
        · intro m2 p2 h
          simp only [LoopEnd.panicked.injEq] at h
          obtain ⟨rfl, rfl⟩ := h
          exact ⟨⟨[.received m, .broadcast m], rfl⟩, by simp [List.count_cons]⟩
        · intro h; cases h
      · have hnp : ∀ p, (processMessage codec sn w g mt m).1 ≠ .panic p :=
          fun p h => hp ⟨p, h⟩
        rw [readLoop_frame_continue codec sn mt m w rest g hnp,
          loopEnd_frame_continue codec sn mt m w rest g hnp]
        obtain ⟨h1, h2, h3⟩ := ih (processMessage codec sn w g mt m).2
        refine ⟨?_, ?_, ?_⟩
        · intro msg h
          obtain ⟨⟨pre, hpre⟩, hcount⟩ := h1 msg h
          refine ⟨⟨.received m :: .broadcast m ::
            .processed m (processMessage codec sn w g mt m).1 :: pre, by simp [hpre]⟩, ?_⟩
          simpa [List.count_cons] using hcount
        · intro m2 p2 h
          obtain ⟨⟨pre, hpre⟩, hcount⟩ := h2 m2 p2 h
          refine ⟨⟨.received m :: .broadcast m ::
            .processed m (processMessage codec sn w g mt m).1 :: pre, by simp [hpre]⟩, ?_⟩
          simpa [List.count_cons] using hcount
        · intro h
          obtain ⟨hc1, hc2⟩ := h3 h
          constructor
          · simpa [List.count_cons] using hc1
          · simpa [List.count_cons] using hc2

/-- C17, on the code: the socket delivers the frame `send_message` with a number
as message, then a well-formed frame, then a read error. The dispatcher panics
on the first frame (the defect of C12), which unwinds the handler: the socket
is closed, the second frame is never read or broadcast, the failed read is
never reached and no unregister is sent. Without the first frame the same
reads end as the claim says: the frame is broadcast and dispatched, the failed
read is followed by one unregister send and the close. -/
theorem read_loop_panic_skips_unregister :
    (HandleConnections sampleCodec "chat" true
        [.frame TextMessage [1] ⟨⟨7⟩, 5, 6⟩, .frame TextMessage [2] ⟨⟨8⟩, 7, 8⟩,
          .error "EOF"] quietGateway).1 =
        [.registered, .received [1], .broadcast [1],
          .processed [1]
            (.panic "interface conversion: interface \x7b\x7d is float64, not string"),
          .closed] ∧
      (HandleConnections sampleCodec "chat" true
        [.frame TextMessage [1] ⟨⟨7⟩, 5, 6⟩, .frame TextMessage [2] ⟨⟨8⟩, 7, 8⟩,
          .error "EOF"] quietGateway).1.count .unregistered = 0 ∧
      (HandleConnections sampleCodec "chat" true
        [.frame TextMessage [2] ⟨⟨8⟩, 7, 8⟩, .error "EOF"] quietGateway).1 =
        [.registered, .received [2], .broadcast [2], .processed [2] .ok,
          .readFailed "EOF", .unregistered, .closed] := by
  refine ⟨rfl, by decide, rfl⟩

end SimpleChat
